import Mathlib

/-!
Verification of the Deployment-Approval-Function webhook service.

The development shallowly embeds the three Python source files
(`function_app.py`, `shared/approval_validator.py`, `shared/github_client.py`)
into Lean: JSON values become an inductive `Json` type, Python dictionary
operations become explicit functions over `Json` that may raise a modelled
`PyErr`, outbound HTTP transport becomes an oracle value, and each Python
function becomes a Lean function over these.
-/

namespace DeployApproval

/-- A JSON value, as produced by Python's `json` module / `req.get_json()`.
`Json.null` also stands for Python `None` (Python's `json` decodes JSON
`null` to `None`, so the identification is exact). -/
inductive Json where
  | null : Json
  | bool : Bool → Json
  | num : Int → Json
  | str : String → Json
  | arr : List Json → Json
  | obj : List (String × Json) → Json
deriving Repr, Inhabited

/-- Python truthiness of a JSON value: `None`, `False`, `0`, `""`, `[]`,
`{}` are falsy, everything else truthy. -/
def Json.truthy : Json → Bool
  | .null => false
  | .bool b => b
  | .num n => n != 0
  | .str s => s ≠ ""
  | .arr l => !l.isEmpty
  | .obj l => !l.isEmpty

/-- First binding of a key in an object's field list (Python dicts have
unique keys; the embedding takes the first match). Returns `none` when the
value is not an object or the key is missing. -/
def Json.lookup : Json → String → Option Json
  | .obj fields, k => fields.lookup k
  | _, _ => none

/-- A modelled Python exception: its class name and the text `str(e)` would
produce (the text of messages raised by library internals is abbreviated;
no claim depends on their exact wording). -/
structure PyErr where
  name : String
  msg : String
deriving Repr, DecidableEq

/-- Whether `needle` occurs as a contiguous run in `hay` (an empty needle
occurs everywhere). -/
def listContainsSub (needle : List Char) : List Char → Bool
  | [] => needle.isEmpty
  | c :: cs => needle.isPrefixOf (c :: cs) || listContainsSub needle cs

/-- Python substring test `sub in s` for strings (used by
`_extract_username` and by `in`-checks that land on string values). -/
def pyInStr (sub s : String) : Bool :=
  listContainsSub sub.data s.data

/-- Python `s.split(sep)` for a single-character separator (the only kind
the sources use): split at every occurrence, keeping empty pieces, never
returning an empty list. -/
def pySplitChar (sep : Char) : List Char → List (List Char)
  | [] => [[]]
  | c :: cs =>
      let r := pySplitChar sep cs
      if c = sep then [] :: r
      else
        match r with
        | h :: t => (c :: h) :: t
        | [] => [[c]]

/-- ASCII whitespace, the characters Python's `str.strip()` removes on the
ASCII plane (its further Unicode whitespace is never fed to it here). -/
def pyIsSpace (c : Char) : Bool :=
  c = ' ' || c = '\t' || c = '\n' || c = '\x0d' || c = '\x0b' || c = '\x0c'

/-- Python `s.strip()`: drop leading and trailing whitespace. -/
def pyStripChars (l : List Char) : List Char :=
  ((l.dropWhile pyIsSpace).reverse.dropWhile pyIsSpace).reverse

/-- Python `s.strip()` on strings. -/
def pyStrip (s : String) : String := String.mk (pyStripChars s.data)

/-- Python `str.lower()` restricted to ASCII (the identities the sources
compare are ASCII; Python's full Unicode lowering agrees there). -/
def pyLowerChar (c : Char) : Char :=
  if 65 ≤ c.toNat && c.toNat ≤ 90 then Char.ofNat (c.toNat + 32) else c

/-- Python `s.lower()` on strings (ASCII plane). -/
def pyLower (s : String) : String := String.mk (s.data.map pyLowerChar)

/-- Python `d.get(key, default)` where `d` is an arbitrary value: raises
`AttributeError` unless `d` is a dict. -/
def pyDictGet (d : Json) (key : String) (default : Json) : Except PyErr Json :=
  match d with
  | .obj fields => .ok ((fields.lookup key).getD default)
  | _ => .error ⟨"AttributeError", "object has no attribute get"⟩

/-- Python `key in d` for a string `key`: key membership for dicts,
substring test for strings, element membership for lists, `TypeError`
otherwise. -/
def pyIn (key : String) (d : Json) : Except PyErr Bool :=
  match d with
  | .obj fields => .ok (fields.lookup key).isSome
  | .str s => .ok (pyInStr key s)
  | .arr l => .ok (l.any (fun x => match x with | .str s => s = key | _ => false))
  | _ => .error ⟨"TypeError", "argument is not iterable"⟩

/-- Python `d[key]` for a string `key`: dict indexing (`KeyError` when the
key is missing), `TypeError` on every other value. In the source every
indexing follows an `in`-check, so the `KeyError` branch is unreachable
there. -/
def pyIndex (d : Json) (key : String) : Except PyErr Json :=
  match d with
  | .obj fields =>
      match fields.lookup key with
      | some v => .ok v
      | none => .error ⟨"KeyError", key⟩
  | _ => .error ⟨"TypeError", "value is not subscriptable"⟩

/-- Python `str(v)` as used inside the handler's f-strings. Scalars are
rendered exactly as Python renders them; the rendering of lists/dicts is
abbreviated (no claim exercises it). -/
def pyStr : Json → String
  | .null => "None"
  | .bool true => "True"
  | .bool false => "False"
  | .num n => toString n
  | .str s => s
  | .arr _ => "[...]"
  | .obj _ => "\x7b...\x7d"

/-! ## `ApprovalValidator._extract_username` (approval_validator.py, lines 122-154)

The string-level core, for a `str` argument.  `s.split(sep)[0]` is the
piece before the first separator, `s.split(sep)[-1]` the piece after the
last one (both total because `pySplitChar` never returns `[]`). -/
def extractUsernameStr (user_string : String) : String :=
  if user_string = "" then ""
  else
    let cs := user_string.data
    let s1 := if cs.contains '@' then (pySplitChar '@' cs).headD [] else cs
    let s2 := if s1.contains '\\' then (pySplitChar '\\' s1).getLastD [] else s1
    let s3 := if s2.contains '/' then (pySplitChar '/' s2).getLastD [] else s2
    String.mk (pyStripChars s3)

/-- Model of `_extract_username` for an arbitrary run-time value (the validator calls
it on whatever `initiated_by` resolved to).  `if not user_string: return ""`
returns `""` for every falsy value; a truthy non-string then raises
`TypeError` at the first `in`-test (`"@" in user_string`). -/
def extract_username (v : Json) : Except PyErr String :=
  if v.truthy = false then .ok ""
  else
    match v with
    | .str s => .ok (extractUsernameStr s)
    | _ => .error ⟨"TypeError", "argument of type is not iterable"⟩

/-! ## SHA-256 / HMAC-SHA256 (Python's `hashlib` / `hmac` as used by
`verify_signature` in function_app.py, lines 171-189)

Bytes are `Nat`s below 256; 32-bit words are `Nat`s reduced mod `2 ^ 32`
by `w32`. The algorithm follows FIPS 180-4 exactly (and is checked below
against the standard test vectors for SHA-256 and RFC 4231 for HMAC). -/

/-- Reduce to a 32-bit word. -/
def w32 (n : Nat) : Nat := n % 4294967296

/-- Right rotation of a 32-bit word. -/
def rotr (x n : Nat) : Nat := w32 ((x >>> n) ||| (x <<< (32 - n)))

def shaCh (x y z : Nat) : Nat := (x &&& y) ^^^ ((x ^^^ 4294967295) &&& z)

def shaMaj (x y z : Nat) : Nat := (x &&& y) ^^^ (x &&& z) ^^^ (y &&& z)

def bigSigma0 (x : Nat) : Nat := (rotr x 2) ^^^ (rotr x 13) ^^^ (rotr x 22)

def bigSigma1 (x : Nat) : Nat := (rotr x 6) ^^^ (rotr x 11) ^^^ (rotr x 25)

def smallSigma0 (x : Nat) : Nat := (rotr x 7) ^^^ (rotr x 18) ^^^ (x >>> 3)

def smallSigma1 (x : Nat) : Nat := (rotr x 17) ^^^ (rotr x 19) ^^^ (x >>> 10)

/-- The 64 SHA-256 round constants. -/
def sha256K : List Nat :=
  [1116352408, 1899447441, 3049323471, 3921009573, 961987163, 1508970993,
   2453635748, 2870763221, 3624381080, 310598401, 607225278, 1426881987,
   1925078388, 2162078206, 2614888103, 3248222580, 3835390401, 4022224774,
   264347078, 604807628, 770255983, 1249150122, 1555081692, 1996064986,
   2554220882, 2821834349, 2952996808, 3210313671, 3336571891, 3584528711,
   113926993, 338241895, 666307205, 773529912, 1294757372, 1396182291,
   1695183700, 1986661051, 2177026350, 2456956037, 2730485921, 2820302411,
   3259730800, 3345764771, 3516065817, 3600352804, 4094571909, 275423344,
   430227734, 506948616, 659060556, 883997877, 958139571, 1322822218,
   1537002063, 1747873779, 1955562222, 2024104815, 2227730452, 2361852424,
   2428436474, 2756734187, 3204031479, 3329325298]

/-- The SHA-256 initial hash value. -/
def sha256H0 : List Nat :=
  [1779033703, 3144134277, 1013904242, 2773480762,
   1359893119, 2600822924, 528734635, 1541459225]

/-- The `k` bytes of `n`, big-endian. -/
def toBytesBE : Nat → Nat → List Nat
  | 0, _ => []
  | k + 1, n => toBytesBE k (n / 256) ++ [n % 256]

/-- FIPS 180-4 padding: append `0x80`, zero bytes up to 56 mod 64, then the
bit length as 8 big-endian bytes. -/
def sha256pad (msg : List Nat) : List Nat :=
  let len := msg.length
  msg ++ [0x80] ++ List.replicate ((119 - (len % 64)) % 64) 0 ++ toBytesBE 8 (len * 8)

/-- Group bytes into 32-bit big-endian words. -/
def bytesToWords : List Nat → List Nat
  | a :: b :: c :: d :: rest => (((a * 256 + b) * 256 + c) * 256 + d) :: bytesToWords rest
  | _ => []

/-- Group a word list into 16-word blocks (a padded message is always a
whole number of blocks). -/
def toBlocks : List Nat → List (List Nat)
  | w0 :: w1 :: w2 :: w3 :: w4 :: w5 :: w6 :: w7 ::
    w8 :: w9 :: w10 :: w11 :: w12 :: w13 :: w14 :: w15 :: rest =>
      [w0, w1, w2, w3, w4, w5, w6, w7, w8, w9, w10, w11, w12, w13, w14, w15] :: toBlocks rest
  | _ => []

/-- One step of extending the message schedule by a word. -/
def scheduleStep (w : List Nat) : List Nat :=
  let t := w.length
  w ++ [w32 (w.getD (t - 16) 0 + smallSigma0 (w.getD (t - 15) 0) +
             w.getD (t - 7) 0 + smallSigma1 (w.getD (t - 2) 0))]

/-- Extend a 16-word block to the 64-word message schedule. -/
def schedule (block : List Nat) : List Nat := Nat.repeat scheduleStep 48 block

/-- One SHA-256 compression round on the 8-word working state. -/
def sha256Round (st : List Nat) (kw : Nat × Nat) : List Nat :=
  match st with
  | [a, b, c, d, e, f, g, h] =>
      let t1 := w32 (h + bigSigma1 e + shaCh e f g + kw.1 + kw.2)
      let t2 := w32 (bigSigma0 a + shaMaj a b c)
      [w32 (t1 + t2), a, b, c, w32 (d + t1), e, f, g]
  | other => other

/-- Compress one 16-word block into the running hash value. -/
def sha256Compress (h : List Nat) (block : List Nat) : List Nat :=
  let st := (sha256K.zip (schedule block)).foldl sha256Round h
  List.zipWith (fun x y => w32 (x + y)) h st

/-- SHA-256 of a byte list, as 32 bytes. -/
def sha256 (msg : List Nat) : List Nat :=
  let hashWords := (toBlocks (bytesToWords (sha256pad msg))).foldl sha256Compress sha256H0
  (hashWords.map (toBytesBE 4)).flatten

/-- HMAC-SHA256 (RFC 2104), exactly as Python's `hmac.new(key, msg,
hashlib.sha256)` computes it: keys longer than the 64-byte block are first
hashed, the key is zero-padded to the block size, and the usual
ipad/opad construction is applied. -/
def hmacSha256 (key msg : List Nat) : List Nat :=
  let k0 := if key.length > 64 then sha256 key else key
  let kPad := k0 ++ List.replicate (64 - k0.length) 0
  sha256 ((kPad.map (fun b => b ^^^ 0x5c)) ++ sha256 ((kPad.map (fun b => b ^^^ 0x36)) ++ msg))

/-- A nibble as a lowercase hex character. -/
def hexDigit (n : Nat) : Char :=
  if n < 10 then Char.ofNat (48 + n) else Char.ofNat (87 + n)

/-- Lowercase hex rendering of a byte list — Python's `.hexdigest()`. -/
def hexDigestOf (bytes : List Nat) : String :=
  String.join (bytes.map (fun b => String.mk [hexDigit (b / 16), hexDigit (b % 16)]))

/-- UTF-8 encoding of a character's code point. -/
def utf8EncodeChar (c : Char) : List Nat :=
  let n := c.toNat
  if n < 0x80 then [n]
  else if n < 0x800 then [0xc0 + n / 64, 0x80 + n % 64]
  else if n < 0x10000 then [0xe0 + n / 4096, 0x80 + (n / 64) % 64, 0x80 + n % 64]
  else [0xf0 + n / 262144, 0x80 + (n / 4096) % 64, 0x80 + (n / 64) % 64, 0x80 + n % 64]

/-- UTF-8 encoding of a string — Python's `str.encode("utf-8")`. -/
def utf8Encode (s : String) : List Nat := (s.data.map utf8EncodeChar).flatten

/-! ## `verify_signature` (function_app.py, lines 171-189) -/

/-- Model of `verify_signature(payload_body, signature_header, secret)`.
`signature_header` is an `Option` because `req.headers.get` yields `None`
when the header is missing; `if not signature_header` rejects both `None`
and the empty string. `hmac.compare_digest` is a constant-time comparison
whose *result* is exactly string equality (the timing aspect is not
representable in a functional embedding; the returned value is). -/
def verify_signature (payload_body : List Nat) (signature_header : Option String) (secret : String) : Bool :=
  match signature_header with
  | none => false
  | some sig =>
      if sig = "" then false
      else
        let expected_signature := "sha256=" ++ hexDigestOf (hmacSha256 (utf8Encode secret) payload_body)
        expected_signature == sig

/-! ## `GitHubClient` (github_client.py)

Each operation issues exactly one outbound HTTP request, so its transport
outcome is modelled as a single `HttpOutcome` value: either a response
(status, raw text, parsed JSON body — the body is the parse of the text;
the embedding assumes 2xx bodies that the code parses are parseable JSON)
or a raised `requests.exceptions.RequestException` carrying `str(e)`.
`response.raise_for_status()` raises `HTTPError` — itself a
`RequestException` — exactly when the status is `>= 400`. -/

inductive HttpOutcome where
  | ok (status : Nat) (text : String) (body : Json)
  | exn (msg : String)
deriving Repr

/-- Stand-in for `str(e)` of the `HTTPError` that `raise_for_status`
raises (the exact requests wording also names the URL; no claim inspects
it). -/
def httpErrText (status : Nat) : String := "HTTP status " ++ toString status

/-- Model of `GitHubClient.get_workflow_run` (lines 28-50): GET the runs endpoint;
any `RequestException` (including the `raise_for_status` `HTTPError`) is
caught, logged and `None` is returned; otherwise the parsed body. `None`
and JSON `null` coincide (`json` decodes `null` to `None`), so the result
is a single `Json` with `.null` for the failure case. -/
def get_workflow_run (transport : HttpOutcome) : Json :=
  match transport with
  | .ok status _ body => if status ≥ 400 then .null else body
  | .exn _ => .null

/-- Model of `GitHubClient.approve_deployment` (lines 52-79): POST to the callback
URL; on failure return `{"error": f"Error approving deployment: {e}"}`;
on success the parsed body, or `{"status": "approved"}` when the response
text is empty. -/
def approve_deployment (transport : HttpOutcome) : Json :=
  match transport with
  | .ok status text body =>
      if status ≥ 400 then .obj [("error", .str ("Error approving deployment: " ++ httpErrText status))]
      else if text = "" then .obj [("status", .str "approved")]
      else body
  | .exn m => .obj [("error", .str ("Error approving deployment: " ++ m))]

/-- Model of `GitHubClient.reject_deployment` (lines 81-108): same shape as
`approve_deployment` with state `rejected`. -/
def reject_deployment (transport : HttpOutcome) : Json :=
  match transport with
  | .ok status text body =>
      if status ≥ 400 then .obj [("error", .str ("Error rejecting deployment: " ++ httpErrText status))]
      else if text = "" then .obj [("status", .str "rejected")]
      else body
  | .exn m => .obj [("error", .str ("Error rejecting deployment: " ++ m))]

/-- Model of `GitHubClient.add_workflow_summary_error` (lines 110-148): GET the jobs
endpoint; a `RequestException` yields `False`; otherwise
`jobs = response.json().get("jobs", [])` — note that `.get` raises
`AttributeError` when the 2xx body is not a dict, and the `except` clause
catches only `requests.exceptions.RequestException`, so that exception
propagates to the caller.  `False` when `jobs` is falsy, else `True`. -/
def add_workflow_summary_error (transport : HttpOutcome) : Except PyErr Bool :=
  match transport with
  | .ok status _ body =>
      if status ≥ 400 then .ok false
      else
        match pyDictGet body "jobs" (.arr []) with
        | .error e => .error e
        | .ok jobs => if jobs.truthy = false then .ok false else .ok true
  | .exn _ => .ok false

/-- Model of `GitHubClient.cancel_workflow_run` (lines 150-174). -/
def cancel_workflow_run (transport : HttpOutcome) : Json :=
  match transport with
  | .ok status _ _ =>
      if status ≥ 400 then .obj [("error", .str ("Error cancelling workflow run: " ++ httpErrText status))]
      else .obj [("status", .str "cancelled")]
  | .exn m => .obj [("error", .str ("Error cancelling workflow run: " ++ m))]

/-- Model of `GitHubClient.get_user` (lines 176-193). -/
def get_user (transport : HttpOutcome) : Json :=
  match transport with
  | .ok status _ body => if status ≥ 400 then .null else body
  | .exn _ => .null

/-- The transport outcomes a single request can observe, one per endpoint
the main flow can reach (each is contacted at most once per request). -/
structure GatewayOracle where
  runResp : HttpOutcome
  approveResp : HttpOutcome
  rejectResp : HttpOutcome
  jobsResp : HttpOutcome
deriving Repr

/-- An invocation of a Gateway operation by the request handler, with the
arguments the handler passed. The resolver's read-only `get_workflow_run`
fallback is visible through its oracle argument rather than the trace. -/
inductive GatewayCall where
  | rejectCall (callback_url : Json) (comment : String)
  | approveCall (callback_url : Json) (comment : String)
  | summaryCall (repo_owner repo_name run_id : Json) (error_message : String)
deriving Repr

/-- The dictionary `validate_deployment_user` returns. Optional fields model
keys that are present only on some return paths (`username_checked` and
`run_id` on the success path, `error` on the two failure paths);
`initiated_by` is the raw resolved value, hence a `Json`. -/
structure ValidationResult where
  is_valid : Bool
  initiated_by : Json
  username_checked : Option String := none
  run_id : Option Json := none
  error : Option String := none
deriving Repr

/-! ## `ApprovalValidator.validate_deployment_user` (approval_validator.py, lines 22-120)

The body of the `try` block is split into the four resolution methods of
the source plus the final comparison; the split preserves the source's
evaluation order exactly (the three `.get` calls and `workflow.get("id")`
run first, then methods 1-4 in order, each guarded by
`if not initiated_by`). Python's `None` is `Json.null`, so `initiated_by`
starts as `.null` and "no identity yet" is exactly falsiness. -/

/-- Method 1 (lines 49-51): `deployment.payload.actor` when both keys are
present (`if "payload" in deployment and "actor" in deployment["payload"]`,
short-circuit). -/
def method1DeploymentActor (deployment : Json) : Except PyErr Json := do
  let c1 ← pyIn "payload" deployment
  if c1 then do
    let dp ← pyIndex deployment "payload"
    let c2 ← pyIn "actor" dp
    if c2 then pyIndex dp "actor" else pure .null
  else pure .null

/-- Method 2 (lines 54-60): `workflow.triggering_actor`; a dict prefers
`login` over `name` (Python `or`), any other value is taken as-is.
Skipped (without evaluating the `in`-test) when `initiated_by` is already
truthy. -/
def method2TriggeringActor (workflow : Json) (prev : Json) : Except PyErr Json :=
  if prev.truthy then pure prev
  else do
    let c ← pyIn "triggering_actor" workflow
    if c then do
      let triggered_actor ← pyIndex workflow "triggering_actor"
      match triggered_actor with
      | .obj _ => do
          let lg ← pyDictGet triggered_actor "login" .null
          let nm ← pyDictGet triggered_actor "name" .null
          pure (if lg.truthy then lg else nm)
      | v => pure v
    else pure prev

/-- Method 3 (lines 63-65): `sender.get("login")`, only when `sender` is
truthy (`if not initiated_by and sender`). -/
def method3Sender (sender : Json) (prev : Json) : Except PyErr Json :=
  if prev.truthy then pure prev
  else if sender.truthy then pyDictGet sender "login" .null
  else pure prev

/-- Method 4 (lines 68-85): when `run_id` is truthy and the repository
owner login and name are truthy, consult `get_workflow_run`; if its result
is truthy, take `triggering_actor.login` when the `triggering_actor` key
is present, `elif` `actor.login` when the `actor` key is. -/
def method4WorkflowRunApi (gw : GatewayOracle) (webhook_payload : Json) (run_id : Json) (prev : Json) :
    Except PyErr Json :=
  if prev.truthy then pure prev
  else if run_id.truthy then do
    let repository ← pyDictGet webhook_payload "repository" (.obj [])
    let ownerObj ← pyDictGet repository "owner" (.obj [])
    let repo_owner ← pyDictGet ownerObj "login" .null
    let repo_name ← pyDictGet repository "name" .null
    if repo_owner.truthy && repo_name.truthy then
      let workflow_run := get_workflow_run gw.runResp
      if workflow_run.truthy then do
        let c ← pyIn "triggering_actor" workflow_run
        if c then do
          let ta ← pyIndex workflow_run "triggering_actor"
          pyDictGet ta "login" .null
        else do
          let c2 ← pyIn "actor" workflow_run
          if c2 then do
            let actor ← pyIndex workflow_run "actor"
            pyDictGet actor "login" .null
          else pure prev
      else pure prev
    else pure prev
  else pure prev

/-- Lines 40-85: the gets and the four-method fallback chain; returns
`(run_id, initiated_by)` (`run_id` is needed again on line 109). -/
def resolveInitiator (gw : GatewayOracle) (webhook_payload : Json) : Except PyErr (Json × Json) := do
  let deployment ← pyDictGet webhook_payload "deployment" (.obj [])
  let workflow ← pyDictGet webhook_payload "workflow" (.obj [])
  let sender ← pyDictGet webhook_payload "sender" (.obj [])
  let run_id ← pyDictGet workflow "id" .null
  let ib1 ← method1DeploymentActor deployment
  let ib2 ← method2TriggeringActor workflow ib1
  let ib3 ← method3Sender sender ib2
  let initiated_by ← method4WorkflowRunApi gw webhook_payload run_id ib3
  pure (run_id, initiated_by)

/-- The value returned on lines 89-93 when no method produced a truthy
identity. -/
def unknownInitiatorResult : ValidationResult :=
  { is_valid := false, initiated_by := .str "Unknown",
    error := some "Could not determine deployment initiator" }

/-- The body of the `try` block (lines 38-112). `result["run_id"]` is set
only when `run_id` is truthy (line 109's `if run_id:`). -/
def validateInner (gw : GatewayOracle) (authorized_user : String) (webhook_payload : Json) :
    Except PyErr ValidationResult := do
  let (run_id, initiated_by) ← resolveInitiator gw webhook_payload
  if initiated_by.truthy = false then
    pure unknownInitiatorResult
  else do
    let username_clean ← extract_username initiated_by
    let authorized_clean ← extract_username (.str authorized_user)
    pure { is_valid := pyLower username_clean == pyLower authorized_clean,
           initiated_by := initiated_by,
           username_checked := some username_clean,
           run_id := if run_id.truthy then some run_id else none }

/-- Model of `validate_deployment_user` (lines 22-120): the `try` body, with any
exception converted on lines 114-120 to
`{"is_valid": False, "initiated_by": "Unknown", "error": str(e)}`. -/
def validate_deployment_user (gw : GatewayOracle) (authorized_user : String) (webhook_payload : Json) :
    ValidationResult :=
  match validateInner gw authorized_user webhook_payload with
  | .ok r => r
  | .error e => { is_valid := false, initiated_by := .str "Unknown", error := some e.msg }

/-! ## `approval_webhook` (function_app.py, lines 15-168)

The Azure runtime delivers a parsed request: headers, the raw body bytes,
and the outcome of `req.get_json()` (which raises `ValueError` on a
malformed body — modelled as an `Except` whose error is named
`"ValueError"`).  Configuration is the three environment variables.  The
handler is the `try` body (`handlerInner`) wrapped by the
`except ValueError` / `except Exception` clauses (`approval_webhook`);
both are paired with the list of Gateway calls issued so far, so that an
exception part-way through (possible only after the reject call, inside
`add_workflow_summary_error`) still reports the calls that were made. -/

/-- The three environment variables read by the handler. `none` is an
unset variable (`os.environ.get` returning `None`). -/
structure Env where
  webhook_secret : Option String
  github_token : Option String
  authorized_user : Option String
deriving Repr

/-- Python truthiness of an `os.environ.get` result (`None` and `""` are
falsy). -/
def envTruthy : Option String → Bool
  | none => false
  | some s => s ≠ ""

/-- The parts of the incoming HTTP request the handler reads. -/
structure Request where
  event_header : Option String
  signature_header : Option String
  raw_body : List Nat
  json_body : Except PyErr Json
deriving Repr

structure HttpResponse where
  status_code : Nat
  body : Json
deriving Repr

/-- Python `v1 != v2` for a JSON value against a string literal (false for
every non-string value, string inequality otherwise); the handler uses it
as `action != "requested"`. `pyEqStr` is the complementary equality. -/
def pyEqStr (v : Json) (s : String) : Bool :=
  match v with
  | .str t => t = s
  | _ => false

/-- Line 96's f-string. `pyStr` renders the interpolated
`environment_name`. -/
def rejectionMessage (environment_name : Json) : String :=
  "El usuario utilizado para el despliegue no se encuentra autorizado para desplegar en " ++
    pyStr environment_name

/-- Line 130's f-string. -/
def approvalMessage (initiated_by environment_name : Json) : String :=
  "Usuario autorizado: " ++ pyStr initiated_by ++ ". Despliegue permitido en " ++
    pyStr environment_name

/-- The `try` body of `approval_webhook` (lines 27-150).  Errors carry the
Gateway calls already issued.  `validation_result.get("initiated_by",
"Unknown")` is the structure field directly: both return paths of
`validate_deployment_user` set that key. -/
def handlerInner (env : Env) (gw : GatewayOracle) (req : Request) :
    Except (PyErr × List GatewayCall) (HttpResponse × List GatewayCall) := do
  let req_body ← req.json_body.mapError (fun e => (e, []))
  if envTruthy env.webhook_secret &&
      !(verify_signature req.raw_body req.signature_header (env.webhook_secret.getD "")) then
    pure (⟨401, .obj [("error", .str "Invalid signature")]⟩, [])
  else
    let authorized_user := env.authorized_user.getD "APZW3PRD_BCP"
    if envTruthy env.github_token = false then
      pure (⟨500, .obj [("error", .str "GitHub configuration is missing (GITHUB_TOKEN)")]⟩, [])
    else do
      let action ← (pyDictGet req_body "action" .null).mapError (fun e => (e, []))
      let deployment_callback_url ← (pyDictGet req_body "deployment_callback_url" .null).mapError (fun e => (e, []))
      let deployment ← (pyDictGet req_body "deployment" (.obj [])).mapError (fun e => (e, []))
      let repository ← (pyDictGet req_body "repository" (.obj [])).mapError (fun e => (e, []))
      let workflow ← (pyDictGet req_body "workflow" (.obj [])).mapError (fun e => (e, []))
      let event_type := req.event_header.getD ""
      if event_type != "deployment_protection_rule" || !(pyEqStr action "requested") then
        pure (⟨200, .obj [("message", .str "Not a deployment protection rule request, skipping")]⟩, [])
      else do
        let _repo_full_name ← (pyDictGet repository "full_name" .null).mapError (fun e => (e, []))
        let ownerObj ← (pyDictGet repository "owner" (.obj [])).mapError (fun e => (e, []))
        let repo_owner ← (pyDictGet ownerObj "login" .null).mapError (fun e => (e, []))
        let repo_name ← (pyDictGet repository "name" .null).mapError (fun e => (e, []))
        let environment_name ← (pyDictGet deployment "environment" .null).mapError (fun e => (e, []))
        let run_id ← (pyDictGet workflow "id" .null).mapError (fun e => (e, []))
        let validation_result := validate_deployment_user gw authorized_user req_body
        if validation_result.is_valid = false then
          let initiated_by := validation_result.initiated_by
          let error_message := rejectionMessage environment_name
          let rejection_result := reject_deployment gw.rejectResp
          let responseBody : Json :=
            .obj [("status", .str "rejected"),
                  ("reason", .str error_message),
                  ("initiated_by", initiated_by),
                  ("authorized_user", .str authorized_user),
                  ("rejection_result", rejection_result)]
          if run_id.truthy then
            let calls := [GatewayCall.rejectCall deployment_callback_url error_message,
                          GatewayCall.summaryCall repo_owner repo_name run_id error_message]
            match add_workflow_summary_error gw.jobsResp with
            | .error e => .error (e, calls)
            | .ok _ => pure (⟨200, responseBody⟩, calls)
          else
            pure (⟨200, responseBody⟩, [GatewayCall.rejectCall deployment_callback_url error_message])
        else
          let initiated_by := validation_result.initiated_by
          let success_message := approvalMessage initiated_by environment_name
          let approval_result := approve_deployment gw.approveResp
          pure (⟨200, .obj [("status", .str "approved"),
                            ("message", .str success_message),
                            ("initiated_by", initiated_by),
                            ("environment", environment_name),
                            ("approval_result", approval_result)]⟩,
                [GatewayCall.approveCall deployment_callback_url success_message])

/-- The Gateway calls recorded by a handler run, successful or not. -/
def traceOf : Except (PyErr × List GatewayCall) (HttpResponse × List GatewayCall) →
    List GatewayCall
  | .ok (_, t) => t
  | .error (_, t) => t

/-- Model of `approval_webhook` (lines 15-168): the `try` body with the two
`except` clauses — `ValueError` becomes a 400, every other exception a
500 carrying the exception's message. -/
def approval_webhook (env : Env) (gw : GatewayOracle) (req : Request) :
    HttpResponse × List GatewayCall :=
  match handlerInner env gw req with
  | .ok r => r
  | .error (e, calls) =>
      if e.name = "ValueError" then
        (⟨400, .obj [("error", .str ("Invalid request body: " ++ e.msg))]⟩, calls)
      else
        (⟨500, .obj [("error", .str ("Unexpected error processing webhook: " ++ e.msg))]⟩, calls)

/-! ## Specification-side definitions

Pure (exception-free) formulations used to *state* the claims: the three
strip steps of `extractUsername`, and the resolution chain in two
variants — `resolveChainModel`, read off the code (strategy 4 keyed on
the *presence* of the `triggering_actor` / `actor` keys), and
`resolveChainClaimed`, following the specification's words (strategy 4
preferring the *value* `triggering_actor.login`, then `actor.login`).
The refinement theorems compare `resolveInitiator` with them. -/

/-- Total key access: the value under `k`, or `null` when `j` is not an
object or lacks the key. -/
def jGet (j : Json) (k : String) : Json := (j.lookup k).getD .null

/-- Whether an object value has the key (false for non-objects). -/
def hasKey (j : Json) (k : String) : Bool := (j.lookup k).isSome

/-- Claim C9's first step: strip an email-style domain suffix — keep the
part before the first `"@"` — when an `"@"` is present. -/
def stripEmailDomain (s : String) : String :=
  if s.data.contains '@' then String.mk ((pySplitChar '@' s.data).headD []) else s

/-- Claim C9's second step: keep the part after the last backslash when
one is present. -/
def stripBackslashDomain (s : String) : String :=
  if s.data.contains '\\' then String.mk ((pySplitChar '\\' s.data).getLastD []) else s

/-- Claim C9's third step: keep the part after the last `"/"` when one is
present. -/
def stripSlashDomain (s : String) : String :=
  if s.data.contains '/' then String.mk ((pySplitChar '/' s.data).getLastD []) else s

/-- Resolution strategy 1: `deployment.payload.actor`. -/
def strategy1V (deployment : Json) : Json := jGet (jGet deployment "payload") "actor"

/-- Resolution strategy 2: `workflow.triggering_actor`, taken directly
when it is not an object, preferring `login` over `name` when it is. -/
def strategy2V (workflow : Json) : Json :=
  match workflow.lookup "triggering_actor" with
  | some (.obj f) =>
      let lg := (f.lookup "login").getD .null
      if lg.truthy then lg else (f.lookup "name").getD .null
  | some v => v
  | none => .null

/-- Resolution strategy 3: `sender.login`. -/
def strategy3V (sender : Json) : Json := jGet sender "login"

/-- The value `initiated_by` holds after methods 1-3 (before the network
fallback): the accumulator of the source's `if not initiated_by` chain.
Method 2 runs when its key is present (its result may itself be falsy and
is then carried forward); method 3 runs when `sender` is truthy. -/
def preNetworkResolve (p : Json) : Json :=
  let a1 := strategy1V (jGet p "deployment")
  let a2 := if a1.truthy then a1
            else if hasKey (jGet p "workflow") "triggering_actor" then strategy2V (jGet p "workflow")
            else a1
  if a2.truthy then a2
  else if (jGet p "sender").truthy then strategy3V (jGet p "sender")
  else a2

/-- Resolution strategy 4 as the code implements it: when the repository
owner login and name are truthy and the fetched run is truthy, take
`triggering_actor.login` when the `triggering_actor` key is *present*,
`elif` `actor.login` when the `actor` key is present; otherwise keep the
accumulator. -/
def strategy4V (gw : GatewayOracle) (p : Json) (prev : Json) : Json :=
  let repo_owner := jGet (jGet (jGet p "repository") "owner") "login"
  let repo_name := jGet (jGet p "repository") "name"
  if repo_owner.truthy && repo_name.truthy then
    let workflow_run := get_workflow_run gw.runResp
    if workflow_run.truthy then
      if hasKey workflow_run "triggering_actor" then jGet (jGet workflow_run "triggering_actor") "login"
      else if hasKey workflow_run "actor" then jGet (jGet workflow_run "actor") "login"
      else prev
    else prev
  else prev

/-- The full resolution chain as the code implements it: the value
`initiated_by` holds on line 87, phrased over total lookups. -/
def resolveChainModel (gw : GatewayOracle) (p : Json) : Json :=
  let a3 := preNetworkResolve p
  if a3.truthy then a3
  else if (jGet (jGet p "workflow") "id").truthy then strategy4V gw p a3
  else a3

/-- Strategy 4 as claim C4 words it: "from its result prefer
`triggering_actor.login`, then `actor.login`" — i.e. fall back to
`actor.login` whenever `triggering_actor.login` yields nothing. -/
def strategy4Claimed (gw : GatewayOracle) (p : Json) : Json :=
  let run_id := jGet (jGet p "workflow") "id"
  let repo_owner := jGet (jGet (jGet p "repository") "owner") "login"
  let repo_name := jGet (jGet p "repository") "name"
  if run_id.truthy && repo_owner.truthy && repo_name.truthy then
    let workflow_run := get_workflow_run gw.runResp
    let ta := jGet (jGet workflow_run "triggering_actor") "login"
    if ta.truthy then ta else jGet (jGet workflow_run "actor") "login"
  else .null

/-- The ordered first-non-empty-wins chain exactly as claim C4 states it
(strategies 1-3 as in the code, strategy 4 per `strategy4Claimed`). -/
def resolveChainClaimed (gw : GatewayOracle) (p : Json) : Option Json :=
  let s1 := strategy1V (jGet p "deployment")
  let s2 := strategy2V (jGet p "workflow")
  let s3 := strategy3V (jGet p "sender")
  let s4 := strategy4Claimed gw p
  if s1.truthy then some s1
  else if s2.truthy then some s2
  else if s3.truthy then some s3
  else if s4.truthy then some s4
  else none

/-- The key is absent or its value is an object (the shapes under which
the handler's `.get` chains cannot raise). -/
def keyObjOrAbsent (b : Json) (k : String) : Bool :=
  match b.lookup k with
  | none => true
  | some (.obj _) => true
  | some _ => false

/-- A body shape under which every `.get` the handler itself performs
succeeds: a JSON object whose `deployment` / `repository` / `workflow`
values (and the repository's `owner`) are objects when present. -/
def handlerShapeOk (b : Json) : Bool :=
  match b with
  | .obj _ => keyObjOrAbsent b "deployment" && keyObjOrAbsent b "repository" &&
              keyObjOrAbsent b "workflow" && keyObjOrAbsent (jGet b "repository") "owner"
  | _ => false

/-! # Theorems -/

/-- Lemma: `_extract_username` called on an actual string never raises and is the
string-level pipeline (for `""` the early `return ""` and the pipeline
agree). -/
theorem extract_username_str_ok (t : String) :
    extract_username (.str t) = .ok (extractUsernameStr t) := by
  by_cases h : t = ""
  · subst h; rfl
  · simp [extract_username, Json.truthy, h]

set_option maxRecDepth 100000 in
/-- FIPS 180-4 test vector: SHA-256 of the empty message. -/
theorem sha256_empty_vector :
    hexDigestOf (sha256 []) = "e3b0c44298fc1c149afbf4c8996fb92427ae41e4649b934ca495991b7852b855" := by
  decide

set_option maxRecDepth 100000 in
/-- FIPS 180-4 test vector: SHA-256 of `"abc"`. -/
theorem sha256_abc_vector :
    hexDigestOf (sha256 (utf8Encode "abc")) = "ba7816bf8f01cfea414140de5dae2223b00361a396177a9cb410ff61f20015ad" := by
  decide

set_option maxRecDepth 100000 in
/-- RFC 4231 test case 1 for HMAC-SHA256. -/
theorem hmac_rfc4231_vector :
    hexDigestOf (hmacSha256 (List.replicate 20 0x0b) (utf8Encode "Hi There")) =
      "b0344c61d8db38535ca8afceaf0bf12b881dc200c9833da726e9376c2e32cff7" := by
  decide

set_option maxRecDepth 100000 in
/-- A matching `(body, secret, header)` triple is accepted. -/
theorem verify_signature_accepts_valid :
    verify_signature (utf8Encode "hello")
      (some "sha256=88aab3ede8d3adf94d26ab90d3bafd4a2083070c3bcce9c014ee04a443847c0b") "secret" = true := by
  decide

set_option maxRecDepth 100000 in
/-- A header differing in its last hex digit is rejected. -/
theorem verify_signature_rejects_wrong :
    verify_signature (utf8Encode "hello")
      (some "sha256=88aab3ede8d3adf94d26ab90d3bafd4a2083070c3bcce9c014ee04a443847c0c") "secret" = false := by
  decide

/-- C9: `extractUsername` applies, in order and each conditionally on its
delimiter's presence, the email strip (part before the first `"@"`), the
backslash strip (part after the last `"\"`), the slash strip (part after
the last `"/"`), then trims whitespace; and it maps the five documented
examples as stated. -/
theorem extractUsername_pipeline_and_examples :
    (∀ s, extractUsernameStr s = pyStrip (stripSlashDomain (stripBackslashDomain (stripEmailDomain s))))
    ∧ extractUsernameStr "user@example.com" = "user"
    ∧ extractUsernameStr "DOMAIN\\user" = "user"
    ∧ extractUsernameStr "org/user" = "user"
    ∧ extractUsernameStr "plainuser" = "plainuser"
    ∧ extractUsernameStr "" = "" := by
  refine ⟨?_, by decide, by decide, by decide, by decide, rfl⟩
  intro s
  by_cases h : s = ""
  · subst h; rfl
  · simp [extractUsernameStr, stripEmailDomain, stripBackslashDomain, stripSlashDomain,
      pyStrip, h, apply_ite String.data]

/-- C2: `verify_signature` returns false when the header is absent or
empty, and otherwise returns true exactly when the header equals
`"sha256="` followed by the lowercase hex HMAC-SHA256 digest of the raw
body keyed by the secret; the biconditional makes any body/secret/header
change that breaks the equality flip the result to false. -/
theorem verify_signature_spec :
    (∀ body secret, verify_signature body none secret = false)
    ∧ (∀ body secret, verify_signature body (some "") secret = false)
    ∧ (∀ body secret hdr,
        verify_signature body (some hdr) secret =
          ("sha256=" ++ hexDigestOf (hmacSha256 (utf8Encode secret) body) == hdr))
    ∧ (∀ body secret hdr,
        verify_signature body (some hdr) secret = true ↔
          hdr = "sha256=" ++ hexDigestOf (hmacSha256 (utf8Encode secret) body)) := by
  have key : ∀ body secret hdr,
      verify_signature body (some hdr) secret =
        ("sha256=" ++ hexDigestOf (hmacSha256 (utf8Encode secret) body) == hdr) := by
    intro body secret hdr
    by_cases h : hdr = ""
    · subst h
      have hne : ("sha256=" ++ hexDigestOf (hmacSha256 (utf8Encode secret) body)) ≠ "" := by
        intro heq
        have hlen := congrArg String.length heq
        simp [String.length_append] at hlen
        exact absurd hlen.1 (by decide)
      simp [verify_signature, hne]
    · simp [verify_signature, h]
  refine ⟨fun _ _ => rfl, fun _ _ => rfl, key, ?_⟩
  intro body secret hdr
  rw [key, beq_iff_eq]
  exact eq_comm

/-- C6 counterexample: a 2xx jobs response whose JSON body is an array (not
an object) makes `add_workflow_summary_error` raise — `.get` on a list is
an `AttributeError`, and the `except` clause catches only
`requests.exceptions.RequestException` — so an exception does escape the
Gateway boundary, against the claim's universal statement. -/
theorem add_workflow_summary_error_raises_on_array_body :
    add_workflow_summary_error (.ok 200 "[]" (.arr [])) =
      .error ⟨"AttributeError", "object has no attribute get"⟩ := rfl

/-- C6 (amended): every Gateway operation turns transport errors and
non-2xx statuses into its structured failure value — `null`/absent for
`get_workflow_run`, an `error`-keyed object for `approve_deployment` and
`reject_deployment`, `False` for `add_workflow_summary_error` (which also
returns normally on any 2xx object body) — and `validate_deployment_user`
converts any internal exception into
`{is_valid: false, initiated_by: "Unknown", error: str(e)}`. -/
theorem gateway_error_containment :
    (∀ m, get_workflow_run (.exn m) = .null)
    ∧ (∀ st t b, st ≥ 400 → get_workflow_run (.ok st t b) = .null)
    ∧ (∀ m, approve_deployment (.exn m) =
        .obj [("error", .str ("Error approving deployment: " ++ m))])
    ∧ (∀ st t b, st ≥ 400 → approve_deployment (.ok st t b) =
        .obj [("error", .str ("Error approving deployment: " ++ httpErrText st))])
    ∧ (∀ m, reject_deployment (.exn m) =
        .obj [("error", .str ("Error rejecting deployment: " ++ m))])
    ∧ (∀ st t b, st ≥ 400 → reject_deployment (.ok st t b) =
        .obj [("error", .str ("Error rejecting deployment: " ++ httpErrText st))])
    ∧ (∀ m, add_workflow_summary_error (.exn m) = .ok false)
    ∧ (∀ st t b, st ≥ 400 → add_workflow_summary_error (.ok st t b) = .ok false)
    ∧ (∀ st t fields, ∃ r, add_workflow_summary_error (.ok st t (.obj fields)) = .ok r)
    ∧ (∀ gw au p e, validateInner gw au p = .error e →
        validate_deployment_user gw au p =
          { is_valid := false, initiated_by := .str "Unknown", error := some e.msg }) := by
  refine ⟨fun _ => rfl, ?_, fun _ => rfl, ?_, fun _ => rfl, ?_, fun _ => rfl, ?_, ?_, ?_⟩
  · intro st t b h; simp [get_workflow_run, h]
  · intro st t b h; simp [approve_deployment, h]
  · intro st t b h; simp [reject_deployment, h]
  · intro st t b h; simp [add_workflow_summary_error, h]
  · intro st t fields
    by_cases h : st ≥ 400
    · exact ⟨false, by simp [add_workflow_summary_error, h]⟩
    · by_cases hj : (((fields.lookup "jobs").getD (.arr [])).truthy : Bool) = false
      · exact ⟨false, by simp [add_workflow_summary_error, pyDictGet, h, hj]⟩
      · exact ⟨true, by simp [add_workflow_summary_error, pyDictGet, h, hj]⟩
  · intro gw au p e h
    simp [validate_deployment_user, h]

/-- Concrete instantiations of `gateway_error_containment`: an HTTP 404
yields `null` from `get_workflow_run`, and a non-object payload makes the
resolver return the converted-exception record rather than raising. -/
theorem gateway_error_containment_witness :
    get_workflow_run (.ok 404 "" (.obj [])) = .null
    ∧ validate_deployment_user ⟨.exn "n", .exn "n", .exn "n", .exn "n"⟩ "u" (.str "x") =
        { is_valid := false, initiated_by := .str "Unknown",
          error := some "object has no attribute get" } :=
  ⟨gateway_error_containment.2.1 404 "" (.obj []) (by decide),
   gateway_error_containment.2.2.2.2.2.2.2.2.2 ⟨.exn "n", .exn "n", .exn "n", .exn "n"⟩ "u"
     (.str "x") ⟨"AttributeError", "object has no attribute get"⟩ rfl⟩



/-! ## Characterization of the resolution chain -/

theorem method1_ok : ∀ d v, method1DeploymentActor d = .ok v → v = strategy1V d := by
  intro d v h
  cases d <;>
    simp only [method1DeploymentActor, pyIn, pyIndex, bind, Except.bind, pure, Except.pure,
      strategy1V, jGet, Json.lookup] at h ⊢
  case null => exact absurd h (by simp)
  case bool b => exact absurd h (by simp)
  case num n => exact absurd h (by simp)
  case str s =>
    by_cases hc : pyInStr "payload" s
    · simp [hc] at h
    · simp [hc] at h; subst h; simp [Json.lookup]
  case arr l =>
    by_cases hc : l.any (fun x => match x with | .str s => s = "payload" | _ => false)
    · simp [hc] at h
    · simp [hc] at h; subst h; simp [Json.lookup]
  case obj fields =>
    cases hl : fields.lookup "payload" with
    | none => simp [hl] at h; subst h; simp [Json.lookup, hl]
    | some dp =>
      simp only [hl] at h ⊢
      cases dp <;> simp only [pyIn, pyIndex, bind, Except.bind] at h
      case null => exact absurd h (by simp)
      case bool b => exact absurd h (by simp)
      case num n => exact absurd h (by simp)
      case str s =>
        by_cases hc : pyInStr "actor" s
        · simp [hc] at h
        · simp [hc] at h; subst h; simp [Json.lookup]
      case arr l =>
        by_cases hc : l.any (fun x => match x with | .str s => s = "actor" | _ => false)
        · simp [hc] at h
        · simp [hc] at h; subst h; simp [Json.lookup]
      case obj f2 =>
        cases ha : f2.lookup "actor" with
        | none => simp [ha] at h; subst h; simp [Json.lookup, ha]
        | some a => simp [ha] at h; subst h; simp [Json.lookup, ha]

theorem pure_ok_iff {α : Type} (a b : α) : (pure a : Except PyErr α) = .ok b ↔ a = b := by
  constructor
  · intro h; cases h; rfl
  · intro h; subst h; rfl

theorem method2_ok : ∀ w prev v, method2TriggeringActor w prev = .ok v →
    v = if prev.truthy then prev
        else if hasKey w "triggering_actor" then strategy2V w
        else prev := by
  intro w prev v h
  by_cases hp : prev.truthy
  · simp [method2TriggeringActor, hp, pure_ok_iff] at h; subst h; simp [hp]
  · simp only [method2TriggeringActor, hp, Bool.false_eq_true, if_false] at h
    simp only [hp, Bool.false_eq_true, if_false]
    cases w with
    | null => exact absurd h (by simp [pyIn, bind, Except.bind])
    | bool b => exact absurd h (by simp [pyIn, bind, Except.bind])
    | num n => exact absurd h (by simp [pyIn, bind, Except.bind])
    | str s =>
      simp only [pyIn, bind, Except.bind] at h
      by_cases hc : pyInStr "triggering_actor" s
      · simp [hc, pyIndex] at h
      · simp [hc, pure_ok_iff] at h; subst h; simp [hasKey, Json.lookup]
    | arr l =>
      simp only [pyIn, bind, Except.bind] at h
      by_cases hc : l.any (fun x => match x with | .str s => s = "triggering_actor" | _ => false)
      · simp [hc, pyIndex] at h
      · simp [hc, pure_ok_iff] at h; subst h; simp [hasKey, Json.lookup]
    | obj fields =>
      simp only [pyIn, bind, Except.bind, Json.lookup] at h
      cases hl : fields.lookup "triggering_actor" with
      | none => simp [hl, pure_ok_iff] at h; subst h; simp [hasKey, Json.lookup, hl]
      | some ta =>
        simp only [hl, Option.isSome_some, if_true, pyIndex] at h
        have hk : hasKey (Json.obj fields) "triggering_actor" = true := by
          simp [hasKey, Json.lookup, hl]
        simp only [hk, if_true]
        cases ta with
        | obj f2 =>
          simp only [pyDictGet, bind, Except.bind, pure_ok_iff] at h
          subst h; simp [strategy2V, Json.lookup, hl]
        | null => simp [pure_ok_iff] at h; subst h; simp [strategy2V, Json.lookup, hl]
        | bool b => simp [pure_ok_iff] at h; subst h; simp [strategy2V, Json.lookup, hl]
        | num n => simp [pure_ok_iff] at h; subst h; simp [strategy2V, Json.lookup, hl]
        | str s => simp [pure_ok_iff] at h; subst h; simp [strategy2V, Json.lookup, hl]
        | arr l => simp [pure_ok_iff] at h; subst h; simp [strategy2V, Json.lookup, hl]

theorem method3_ok : ∀ s prev v, method3Sender s prev = .ok v →
    v = if prev.truthy then prev
        else if s.truthy then strategy3V s
        else prev := by
  intro s prev v h
  by_cases hp : prev.truthy
  · simp [method3Sender, hp, pure_ok_iff] at h; subst h; simp [hp]
  · simp only [method3Sender, hp, Bool.false_eq_true, if_false] at h ⊢
    by_cases hs : s.truthy
    · simp only [hs, if_true] at h ⊢
      cases s with
      | obj fields => simp [pyDictGet, pure_ok_iff] at h; subst h; simp [strategy3V, jGet, Json.lookup]
      | null => exact absurd h (by simp [pyDictGet])
      | bool b => exact absurd h (by simp [pyDictGet])
      | num n => exact absurd h (by simp [pyDictGet])
      | str t => exact absurd h (by simp [pyDictGet])
      | arr l => exact absurd h (by simp [pyDictGet])
    · simp [hs, pure_ok_iff] at h; subst h; simp [hs]

theorem ok_ok_iff {α : Type} (a b : α) : (Except.ok a : Except PyErr α) = .ok b ↔ a = b := by
  constructor
  · intro h; cases h; rfl
  · intro h; subst h; rfl

theorem truthy_null : Json.truthy .null = false := rfl

theorem truthy_bool (b : Bool) : Json.truthy (.bool b) = b := rfl

theorem truthy_num (n : Int) : Json.truthy (.num n) = (n != 0) := rfl

theorem truthy_str (s : String) : Json.truthy (.str s) = decide (s ≠ "") := rfl

theorem truthy_arr (l : List Json) : Json.truthy (.arr l) = !l.isEmpty := rfl

theorem truthy_obj (l : List (String × Json)) : Json.truthy (.obj l) = !l.isEmpty := rfl

theorem method4_ok : ∀ gw p run_id prev v, method4WorkflowRunApi gw p run_id prev = .ok v →
    v = if prev.truthy then prev
        else if run_id.truthy then strategy4V gw p prev
        else prev := by
  intro gw p run_id prev v h
  by_cases hp : prev.truthy
  · simp [method4WorkflowRunApi, hp, pure_ok_iff] at h; subst h; simp [hp]
  · simp only [method4WorkflowRunApi, hp, Bool.false_eq_true, if_false] at h ⊢
    by_cases hr : run_id.truthy
    swap
    · simp [hr, pure_ok_iff] at h; subst h; simp [hr]
    simp only [hr, if_true] at h ⊢
    cases p with
    | null => exact absurd h (by simp [pyDictGet, bind, Except.bind])
    | bool b => exact absurd h (by simp [pyDictGet, bind, Except.bind])
    | num n => exact absurd h (by simp [pyDictGet, bind, Except.bind])
    | str s => exact absurd h (by simp [pyDictGet, bind, Except.bind])
    | arr l => exact absurd h (by simp [pyDictGet, bind, Except.bind])
    | obj fields =>
      simp only [pyDictGet, bind, Except.bind, Json.lookup] at h
      cases hrep : fields.lookup "repository" with
      | none =>
        simp only [hrep, Option.getD_none, List.lookup_nil, Option.getD_none, Json.truthy,
          Bool.false_and, Bool.false_eq_true, if_false, pure_ok_iff] at h
        subst h
        simp [strategy4V, jGet, Json.lookup, hrep, truthy_null]
      | some rep =>
        simp only [hrep, Option.getD_some] at h
        cases rep with
        | null => exact absurd h (by simp)
        | bool b => exact absurd h (by simp)
        | num n => exact absurd h (by simp)
        | str s => exact absurd h (by simp)
        | arr l => exact absurd h (by simp)
        | obj rf =>
          cases how : rf.lookup "owner" with
          | none =>
            simp only [how, Option.getD_none, List.lookup_nil, Option.getD_none, Json.truthy,
              Bool.false_and, Bool.false_eq_true, if_false, pure_ok_iff] at h
            subst h
            simp [strategy4V, jGet, Json.lookup, hrep, how, truthy_null]
          | some ow =>
            simp only [how, Option.getD_some] at h
            cases ow with
            | null => exact absurd h (by simp)
            | bool b => exact absurd h (by simp)
            | num n => exact absurd h (by simp)
            | str s => exact absurd h (by simp)
            | arr l => exact absurd h (by simp)
            | obj owf =>
              by_cases hcond : (((owf.lookup "login").getD .null).truthy &&
                  ((rf.lookup "name").getD .null).truthy) = true
              swap
              · simp only [Bool.not_eq_true] at hcond
                simp only [hcond, Bool.false_eq_true, if_false, pure_ok_iff] at h
                subst h
                simp [strategy4V, jGet, Json.lookup, hrep, how, hcond]
              simp only [hcond, if_true] at h
              cases hwr : get_workflow_run gw.runResp with
              | null =>
                simp only [hwr, truthy_null, Bool.false_eq_true, if_false, pure_ok_iff] at h
                subst h
                simp [strategy4V, jGet, Json.lookup, hrep, how, hcond, hwr, truthy_null]
              | bool b =>
                simp only [hwr, truthy_bool] at h
                cases b with
                | false =>
                  simp only [Bool.false_eq_true, if_false, pure_ok_iff] at h
                  subst h
                  simp [strategy4V, jGet, Json.lookup, hrep, how, hcond, hwr, truthy_bool]
                | true => exact absurd h (by simp [pyIn, bind, Except.bind])
              | num n =>
                simp only [hwr, truthy_num] at h
                by_cases hn : (n != 0) = true
                · rw [hn] at h
                  exact absurd h (by simp [pyIn, bind, Except.bind])
                · simp only [Bool.not_eq_true] at hn
                  simp only [hn, Bool.false_eq_true, if_false, pure_ok_iff] at h
                  subst h
                  simp [strategy4V, jGet, Json.lookup, hrep, how, hcond, hwr, truthy_num, hn]
              | str s =>
                simp only [hwr, truthy_str] at h
                by_cases hs : s = ""
                · subst hs
                  simp only [show decide (("" : String) ≠ "") = false by decide,
                    Bool.false_eq_true, if_false, pure_ok_iff] at h
                  subst h
                  simp [strategy4V, jGet, Json.lookup, hrep, how, hcond, hwr, truthy_str]
                · have ht : decide (s ≠ "") = true := by simp [hs]
                  rw [ht] at h
                  simp only [if_true, pyIn, bind, Except.bind] at h
                  by_cases hc1 : pyInStr "triggering_actor" s
                  · simp [hc1, pyIndex] at h
                  · simp only [hc1, Bool.false_eq_true, if_false] at h
                    by_cases hc2 : pyInStr "actor" s
                    · simp [hc2, pyIndex] at h
                    · simp only [hc2, Bool.false_eq_true, if_false, pure_ok_iff] at h
                      subst h
                      simp [strategy4V, jGet, Json.lookup, hrep, how, hcond, hwr, truthy_str,
                        hs, hasKey]
              | arr l =>
                simp only [hwr, truthy_arr] at h
                by_cases hl : l.isEmpty
                · simp only [hl, Bool.not_true, Bool.false_eq_true, if_false, pure_ok_iff] at h
                  subst h
                  simp [strategy4V, jGet, Json.lookup, hrep, how, hcond, hwr, truthy_arr, hl]
                · simp only [hl, Bool.not_false, if_true, pyIn, bind, Except.bind] at h
                  by_cases hc1 : l.any (fun x => match x with | .str t => t = "triggering_actor" | _ => false)
                  · simp [hc1, pyIndex] at h
                  · simp only [hc1, Bool.false_eq_true, if_false] at h
                    by_cases hc2 : l.any (fun x => match x with | .str t => t = "actor" | _ => false)
                    · simp [hc2, pyIndex] at h
                    · simp only [hc2, Bool.false_eq_true, if_false, pure_ok_iff] at h
                      subst h
                      simp [strategy4V, jGet, Json.lookup, hrep, how, hcond, hwr, truthy_arr,
                        hl, hasKey]
              | obj wf =>
                simp only [hwr, truthy_obj] at h
                by_cases hwf : wf.isEmpty
                · simp only [hwf, Bool.not_true, Bool.false_eq_true, if_false, pure_ok_iff] at h
                  subst h
                  simp [strategy4V, jGet, Json.lookup, hrep, how, hcond, hwr, truthy_obj, hwf]
                · simp only [hwf, Bool.not_false, if_true, pyIn, bind, Except.bind,
                    Json.lookup, pyIndex] at h
                  cases hta : wf.lookup "triggering_actor" with
                  | some ta =>
                    simp only [hta, Option.isSome_some, if_true] at h
                    cases ta with
                    | obj tf =>
                      simp only [pyDictGet, Json.lookup, ok_ok_iff] at h
                      subst h
                      simp [strategy4V, jGet, Json.lookup, hrep, how, hcond, hwr, truthy_obj,
                        hwf, hasKey, hta]
                    | null => exact absurd h (by simp [pyDictGet])
                    | bool b => exact absurd h (by simp [pyDictGet])
                    | num n => exact absurd h (by simp [pyDictGet])
                    | str s => exact absurd h (by simp [pyDictGet])
                    | arr l => exact absurd h (by simp [pyDictGet])
                  | none =>
                    simp only [hta, Option.isSome_none, Bool.false_eq_true, if_false] at h
                    cases hac : wf.lookup "actor" with
                    | some ac =>
                      simp only [hac, Option.isSome_some, if_true] at h
                      cases ac with
                      | obj af =>
                        simp only [pyDictGet, Json.lookup, ok_ok_iff] at h
                        subst h
                        simp [strategy4V, jGet, Json.lookup, hrep, how, hcond, hwr, truthy_obj,
                          hwf, hasKey, hta, hac]
                      | null => exact absurd h (by simp [pyDictGet])
                      | bool b => exact absurd h (by simp [pyDictGet])
                      | num n => exact absurd h (by simp [pyDictGet])
                      | str s => exact absurd h (by simp [pyDictGet])
                      | arr l => exact absurd h (by simp [pyDictGet])
                    | none =>
                      simp only [hac, Option.isSome_none, Bool.false_eq_true, if_false,
                        pure_ok_iff] at h
                      subst h
                      simp [strategy4V, jGet, Json.lookup, hrep, how, hcond, hwr, truthy_obj,
                        hwf, hasKey, hta, hac]

theorem except_bind_ok {α β : Type} (x : Except PyErr α) (f : α → Except PyErr β) (b : β) :
    (x >>= f) = .ok b ↔ ∃ a, x = .ok a ∧ f a = .ok b := by
  cases x <;> simp [bind, Except.bind]

theorem ok_bind {α β : Type} (a : α) (f : α → Except PyErr β) :
    ((Except.ok a : Except PyErr α) >>= f) = f a := rfl

theorem bridge_strategy1 (l : List (String × Json)) (k : String) :
    strategy1V ((l.lookup k).getD (.obj [])) = strategy1V (jGet (.obj l) k) := by
  cases hl : l.lookup k <;> simp [strategy1V, jGet, Json.lookup, hl]

theorem bridge_hasKey (l : List (String × Json)) (k k2 : String) :
    hasKey ((l.lookup k).getD (.obj [])) k2 = hasKey (jGet (.obj l) k) k2 := by
  cases hl : l.lookup k <;> simp [hasKey, jGet, Json.lookup, hl]

theorem bridge_strategy2 (l : List (String × Json)) (k : String) :
    strategy2V ((l.lookup k).getD (.obj [])) = strategy2V (jGet (.obj l) k) := by
  cases hl : l.lookup k <;> simp [strategy2V, jGet, Json.lookup, hl]

theorem bridge_truthy (l : List (String × Json)) (k : String) :
    ((l.lookup k).getD (.obj [])).truthy = (jGet (.obj l) k).truthy := by
  cases hl : l.lookup k <;> simp [jGet, Json.lookup, hl, Json.truthy]

theorem bridge_strategy3 (l : List (String × Json)) (k : String) :
    strategy3V ((l.lookup k).getD (.obj [])) = strategy3V (jGet (.obj l) k) := by
  cases hl : l.lookup k <;> simp [strategy3V, jGet, Json.lookup, hl]

theorem chain_ok (gw : GatewayOracle) (fields : List (String × Json)) (run_id rid v : Json)
    (h : (method1DeploymentActor ((fields.lookup "deployment").getD (.obj [])) >>= fun ib1 =>
          method2TriggeringActor ((fields.lookup "workflow").getD (.obj [])) ib1 >>= fun ib2 =>
          method3Sender ((fields.lookup "sender").getD (.obj [])) ib2 >>= fun ib3 =>
          method4WorkflowRunApi gw (.obj fields) run_id ib3 >>= fun ib4 =>
          pure (run_id, ib4)) = .ok (rid, v))
    (hrid : run_id = jGet (jGet (.obj fields) "workflow") "id") :
    rid = run_id ∧ v = resolveChainModel gw (.obj fields) := by
  rcases (except_bind_ok _ _ _).mp h with ⟨ib1, h1, h⟩
  rcases (except_bind_ok _ _ _).mp h with ⟨ib2, h2, h⟩
  rcases (except_bind_ok _ _ _).mp h with ⟨ib3, h3, h⟩
  rcases (except_bind_ok _ _ _).mp h with ⟨ib4, h4, h⟩
  rw [pure_ok_iff] at h
  have e1 := method1_ok _ _ h1
  have e2 := method2_ok _ _ _ h2
  have e3 := method3_ok _ _ _ h3
  have e4 := method4_ok _ _ _ _ _ h4
  have hrv : rid = run_id ∧ v = ib4 := by
    constructor
    · exact (congrArg Prod.fst h).symm
    · exact (congrArg Prod.snd h).symm
  refine ⟨hrv.1, ?_⟩
  rw [hrv.2, e4, e3, e2, e1]
  simp only [resolveChainModel, preNetworkResolve, ← bridge_strategy1, ← bridge_hasKey,
    ← bridge_strategy2, ← bridge_truthy, ← bridge_strategy3, ← hrid]

theorem resolveInitiator_ok : ∀ gw p rid v, resolveInitiator gw p = .ok (rid, v) →
    rid = jGet (jGet p "workflow") "id" ∧ v = resolveChainModel gw p := by
  intro gw p rid v h
  cases p with
  | null => exact absurd h (by simp [resolveInitiator, pyDictGet, bind, Except.bind])
  | bool b => exact absurd h (by simp [resolveInitiator, pyDictGet, bind, Except.bind])
  | num n => exact absurd h (by simp [resolveInitiator, pyDictGet, bind, Except.bind])
  | str s => exact absurd h (by simp [resolveInitiator, pyDictGet, bind, Except.bind])
  | arr l => exact absurd h (by simp [resolveInitiator, pyDictGet, bind, Except.bind])
  | obj fields =>
    simp only [resolveInitiator, pyDictGet, Json.lookup, ok_bind] at h
    cases hwk : fields.lookup "workflow" with
    | none =>
      simp only [hwk, Option.getD_none, List.lookup_nil, Option.getD_none, ok_bind] at h
      have hrid : (Json.null : Json) = jGet (jGet (.obj fields) "workflow") "id" := by
        simp [jGet, Json.lookup, hwk]
      have hc := chain_ok gw fields .null rid v (by rw [hwk]; simpa using h) hrid
      exact ⟨hc.1.trans hrid, hc.2⟩
    | some w =>
      simp only [hwk, Option.getD_some] at h
      cases w with
      | null => exact absurd h (by simp [bind, Except.bind])
      | bool b => exact absurd h (by simp [bind, Except.bind])
      | num n => exact absurd h (by simp [bind, Except.bind])
      | str s => exact absurd h (by simp [bind, Except.bind])
      | arr l => exact absurd h (by simp [bind, Except.bind])
      | obj wfl =>
        simp only [Json.lookup, ok_bind] at h
        have hrid : ((wfl.lookup "id").getD .null : Json) =
            jGet (jGet (.obj fields) "workflow") "id" := by
          simp [jGet, Json.lookup, hwk]
        have hc := chain_ok gw fields ((wfl.lookup "id").getD .null) rid v
          (by rw [hwk]; simpa using h) hrid
        exact ⟨hc.1.trans hrid, hc.2⟩


/-- C8: for a payload on which resolution runs without an exception and no
strategy yields a truthy identity, `validate_deployment_user` returns
exactly `{is_valid: false, initiated_by: "Unknown", error: "Could not
determine deployment initiator"}`. -/
theorem no_initiator_unknown_record :
    ∀ gw authorized_user p rid v,
      resolveInitiator gw p = .ok (rid, v) →
      (resolveChainModel gw p).truthy = false →
      validate_deployment_user gw authorized_user p = unknownInitiatorResult := by
  intro gw au p rid v h hv
  have hm := (resolveInitiator_ok gw p rid v h).2
  rw [← hm] at hv
  simp [validate_deployment_user, validateInner, h, hv, bind, Except.bind, pure, Except.pure]

/-- Concrete instantiation of `no_initiator_unknown_record`: the empty
payload resolves nothing and yields the unknown-initiator record. -/
theorem no_initiator_unknown_record_witness :
    validate_deployment_user ⟨.exn "n", .exn "n", .exn "n", .exn "n"⟩ "user" (.obj []) =
      unknownInitiatorResult :=
  no_initiator_unknown_record ⟨.exn "n", .exn "n", .exn "n", .exn "n"⟩ "user" (.obj [])
    .null .null rfl rfl

/-- Working lemma for the validator's success-path record. -/
theorem validate_fields_of_resolved :
    ∀ gw authorized_user p rid s,
      resolveInitiator gw p = .ok (rid, .str s) → s ≠ "" →
      validate_deployment_user gw authorized_user p =
        { is_valid := pyLower (extractUsernameStr s) == pyLower (extractUsernameStr authorized_user),
          initiated_by := .str s,
          username_checked := some (extractUsernameStr s),
          run_id := if rid.truthy then some rid else none,
          error := none } := by
  intro gw au p rid s h hs
  simp [validate_deployment_user, validateInner, h, bind, Except.bind, truthy_str, hs,
    extract_username_str_ok, pure, Except.pure]

/-- C3: when resolution (without exception) yields a non-empty identity
string `s`, the validator's result is exactly: `is_valid` true iff the
normalized (`extractUsername`d) identity equals the normalized authorized
identity case-insensitively, `initiated_by` the raw resolved value,
`username_checked` the normalized value, and `run_id` present exactly when
the workflow id is truthy. -/
theorem validation_fields_spec :
    ∀ gw authorized_user p rid s,
      resolveInitiator gw p = .ok (rid, .str s) → s ≠ "" →
      validate_deployment_user gw authorized_user p =
        { is_valid := pyLower (extractUsernameStr s) == pyLower (extractUsernameStr authorized_user),
          initiated_by := .str s,
          username_checked := some (extractUsernameStr s),
          run_id := if rid.truthy then some rid else none,
          error := none } :=
  validate_fields_of_resolved

/-- Concrete instantiation of `validation_fields_spec`: `sender.login =
"carol"` against authorized `"Carol"` — resolution succeeds and the
comparison is case-insensitive, so the deployment is valid. -/
theorem validation_fields_spec_witness :
    validate_deployment_user ⟨.exn "n", .exn "n", .exn "n", .exn "n"⟩ "Carol"
        (.obj [("sender", .obj [("login", .str "carol")])]) =
      { is_valid := true, initiated_by := .str "carol",
        username_checked := some "carol", run_id := none, error := none } :=
  validation_fields_spec ⟨.exn "n", .exn "n", .exn "n", .exn "n"⟩ "Carol"
    (.obj [("sender", .obj [("login", .str "carol")])]) .null "carol" rfl (by decide)

/-- C4 counterexample: the claim reads strategy 4 as "prefer the value of
`triggering_actor.login`, then `actor.login`" (`resolveChainClaimed`).
For a run whose `triggering_actor` object has no `login` but whose `actor`
does, the claimed chain resolves `"z"`, yet the code (an `elif` on key
*presence*) resolves nothing and returns the unknown-initiator record. -/
theorem resolution_strategy4_claim_refuted :
    resolveChainClaimed
        ⟨.ok 200 "x" (.obj [("triggering_actor", .obj [("name", .str "x")]),
                            ("actor", .obj [("login", .str "z")])]), .exn "n", .exn "n", .exn "n"⟩
        (.obj [("workflow", .obj [("id", .num 5)]),
               ("repository", .obj [("owner", .obj [("login", .str "o")]), ("name", .str "r")])]) =
      some (.str "z")
    ∧ validate_deployment_user
        ⟨.ok 200 "x" (.obj [("triggering_actor", .obj [("name", .str "x")]),
                            ("actor", .obj [("login", .str "z")])]), .exn "n", .exn "n", .exn "n"⟩
        "z"
        (.obj [("workflow", .obj [("id", .num 5)]),
               ("repository", .obj [("owner", .obj [("login", .str "o")]), ("name", .str "r")])]) =
      unknownInitiatorResult := ⟨rfl, rfl⟩

/-- C4 (amended): resolution is the ordered first-match-wins chain
`resolveChainModel` — (1) `deployment.payload.actor`; (2)
`workflow.triggering_actor`, direct for a string, `login` over `name` for
an object; (3) `sender.login`; (4) on a truthy workflow id and repository
owner/name, the fetched run's `triggering_actor.login` when the
`triggering_actor` key is present, else `actor.login` when the `actor` key
is present — and whenever methods 1-3 already produced a truthy identity
the Gateway is not consulted (the outcome is oracle-independent). -/
theorem resolution_chain_spec :
    (∀ gw p rid v, resolveInitiator gw p = .ok (rid, v) →
        v = resolveChainModel gw p ∧ rid = jGet (jGet p "workflow") "id")
    ∧ (∀ gw gw2 p, (preNetworkResolve p).truthy = true →
        resolveChainModel gw p = resolveChainModel gw2 p) := by
  constructor
  · intro gw p rid v h
    have hc := resolveInitiator_ok gw p rid v h
    exact ⟨hc.2, hc.1⟩
  · intro gw gw2 p hpre
    simp [resolveChainModel, hpre]

/-- Concrete instantiation of `resolution_chain_spec`: with both
`deployment.payload.actor = "alice"` and `sender.login = "bob"`, the chain
resolves `"alice"` (the earlier strategy wins), and a truthy pre-network
resolution makes the outcome independent of the Gateway oracle. -/
theorem resolution_chain_spec_witness :
    (Json.str "alice" =
        resolveChainModel ⟨.exn "n", .exn "n", .exn "n", .exn "n"⟩
          (.obj [("deployment", .obj [("payload", .obj [("actor", .str "alice")])]),
                 ("sender", .obj [("login", .str "bob")])])
      ∧ Json.null =
        jGet (jGet (.obj [("deployment", .obj [("payload", .obj [("actor", .str "alice")])]),
                          ("sender", .obj [("login", .str "bob")])]) "workflow") "id")
    ∧ resolveChainModel ⟨.exn "n", .exn "n", .exn "n", .exn "n"⟩
        (.obj [("deployment", .obj [("payload", .obj [("actor", .str "alice")])]),
               ("sender", .obj [("login", .str "bob")])]) =
      resolveChainModel ⟨.ok 200 "t" (.obj [("triggering_actor", .obj [("login", .str "eve")])]),
          .exn "n", .exn "n", .exn "n"⟩
        (.obj [("deployment", .obj [("payload", .obj [("actor", .str "alice")])]),
               ("sender", .obj [("login", .str "bob")])]) :=
  ⟨resolution_chain_spec.1 ⟨.exn "n", .exn "n", .exn "n", .exn "n"⟩
      (.obj [("deployment", .obj [("payload", .obj [("actor", .str "alice")])]),
             ("sender", .obj [("login", .str "bob")])]) .null (.str "alice") rfl,
   resolution_chain_spec.2 ⟨.exn "n", .exn "n", .exn "n", .exn "n"⟩
      ⟨.ok 200 "t" (.obj [("triggering_actor", .obj [("login", .str "eve")])]),
          .exn "n", .exn "n", .exn "n"⟩
      (.obj [("deployment", .obj [("payload", .obj [("actor", .str "alice")])]),
             ("sender", .obj [("login", .str "bob")])]) (by decide)⟩


theorem handlerInner_ok_status :
    ∀ env gw req resp calls, handlerInner env gw req = .ok (resp, calls) →
      resp.status_code = 200 ∨ resp.status_code = 401 ∨ resp.status_code = 500 := by
  intro env gw req resp calls h
  simp only [handlerInner, bind, Except.bind, Except.mapError, pure, Except.pure] at h
  repeat' split at h
  all_goals try simp_all
  all_goals obtain ⟨heq, hc⟩ := h
  all_goals subst heq
  all_goals simp

theorem approval_webhook_trace :
    ∀ env gw req, (approval_webhook env gw req).2 = traceOf (handlerInner env gw req) := by
  intro env gw req
  cases hh : handlerInner env gw req with
  | ok pr =>
    obtain ⟨r, t⟩ := pr
    simp [approval_webhook, hh, traceOf]
  | error pe =>
    obtain ⟨e, t⟩ := pe
    by_cases hn : e.name = "ValueError" <;> simp [approval_webhook, hh, traceOf, hn]

/-- C5: the handler's status codes follow the documented mapping — every
response is one of 200/400/401/500; a `ValueError` from body parsing gives
400 with the error text; a configured-but-failing signature check gives
401 before anything else; a missing/empty `GITHUB_TOKEN` gives 500; and
any other exception raised inside the pipeline is caught and surfaced as a
500 carrying the exception's message, never crashing the handler. -/
theorem status_code_mapping :
    (∀ env gw req, (approval_webhook env gw req).1.status_code = 200 ∨
        (approval_webhook env gw req).1.status_code = 400 ∨
        (approval_webhook env gw req).1.status_code = 401 ∨
        (approval_webhook env gw req).1.status_code = 500)
    ∧ (∀ env gw req e, req.json_body = .error e → e.name = "ValueError" →
        (approval_webhook env gw req).1 =
          ⟨400, .obj [("error", .str ("Invalid request body: " ++ e.msg))]⟩)
    ∧ (∀ env gw req b, req.json_body = .ok b →
        (envTruthy env.webhook_secret &&
          !verify_signature req.raw_body req.signature_header (env.webhook_secret.getD "")) = true →
        (approval_webhook env gw req).1 = ⟨401, .obj [("error", .str "Invalid signature")]⟩)
    ∧ (∀ env gw req b, req.json_body = .ok b →
        (envTruthy env.webhook_secret &&
          !verify_signature req.raw_body req.signature_header (env.webhook_secret.getD "")) = false →
        envTruthy env.github_token = false →
        (approval_webhook env gw req).1 =
          ⟨500, .obj [("error", .str "GitHub configuration is missing (GITHUB_TOKEN)")]⟩)
    ∧ (∀ env gw req e calls, handlerInner env gw req = .error (e, calls) →
        e.name ≠ "ValueError" →
        (approval_webhook env gw req).1 =
          ⟨500, .obj [("error", .str ("Unexpected error processing webhook: " ++ e.msg))]⟩) := by
  refine ⟨?_, ?_, ?_, ?_, ?_⟩
  · intro env gw req
    cases hh : handlerInner env gw req with
    | ok pr =>
      obtain ⟨r, t⟩ := pr
      rcases handlerInner_ok_status env gw req r t hh with h2 | h2 | h2 <;>
        simp [approval_webhook, hh, h2]
    | error pe =>
      obtain ⟨e, t⟩ := pe
      by_cases hn : e.name = "ValueError" <;> simp [approval_webhook, hh, hn]
  · intro env gw req e hjson hname
    simp [approval_webhook, handlerInner, hjson, hname, Except.mapError, bind, Except.bind]
  · intro env gw req b hjson hsig
    simp [approval_webhook, handlerInner, hjson, hsig, Except.mapError, bind, Except.bind,
      pure, Except.pure]
  · intro env gw req b hjson hsig htok
    simp [approval_webhook, handlerInner, hjson, hsig, htok, Except.mapError, bind, Except.bind,
      pure, Except.pure]
  · intro env gw req e calls hh hn
    simp [approval_webhook, hh, hn]

/-- Concrete instantiations of `status_code_mapping`: a malformed body
gives a 400 carrying the parse message; a configured secret with a missing
signature header gives a 401. -/
theorem status_code_mapping_witness :
    (approval_webhook ⟨none, some "tok", none⟩ ⟨.exn "n", .exn "n", .exn "n", .exn "n"⟩
        ⟨some "deployment_protection_rule", none, [], .error ⟨"ValueError", "Expecting value"⟩⟩).1 =
      ⟨400, .obj [("error", .str "Invalid request body: Expecting value")]⟩
    ∧ (approval_webhook ⟨some "s3cret", some "tok", none⟩ ⟨.exn "n", .exn "n", .exn "n", .exn "n"⟩
        ⟨some "deployment_protection_rule", none, [], .ok (.obj [])⟩).1 =
      ⟨401, .obj [("error", .str "Invalid signature")]⟩ :=
  ⟨status_code_mapping.2.1 ⟨none, some "tok", none⟩ ⟨.exn "n", .exn "n", .exn "n", .exn "n"⟩
      ⟨some "deployment_protection_rule", none, [], .error ⟨"ValueError", "Expecting value"⟩⟩
      ⟨"ValueError", "Expecting value"⟩ rfl rfl,
   status_code_mapping.2.2.1 ⟨some "s3cret", some "tok", none⟩
      ⟨.exn "n", .exn "n", .exn "n", .exn "n"⟩
      ⟨some "deployment_protection_rule", none, [], .ok (.obj [])⟩ (.obj []) rfl (by decide)⟩

/-- C1 (amended): the handler invokes the Gateway's approve/reject
callback operation only on requests that parsed to a JSON object and
passed the event filter (`X-GitHub-Event` equal to
`deployment_protection_rule` and body `action` equal to `"requested"`);
the presence of `deployment_callback_url` is *not* required — when the
field is absent the operation is still invoked, with a `null` URL. -/
theorem callback_requires_filter :
    ∀ env gw req resp trace url c,
      approval_webhook env gw req = (resp, trace) →
      (GatewayCall.approveCall url c ∈ trace ∨ GatewayCall.rejectCall url c ∈ trace) →
      ∃ bf, req.json_body = .ok (.obj bf)
        ∧ req.event_header = some "deployment_protection_rule"
        ∧ pyEqStr ((bf.lookup "action").getD .null) "requested" = true := by
  intro env gw req resp trace url c heq hmem
  have htr : trace = traceOf (handlerInner env gw req) := by
    rw [← approval_webhook_trace env gw req, heq]
  rw [htr] at hmem
  cases hjb : req.json_body with
  | error e =>
    simp [handlerInner, hjb, Except.mapError, bind, Except.bind, traceOf] at hmem
  | ok b =>
    by_cases hsig : (envTruthy env.webhook_secret &&
        !verify_signature req.raw_body req.signature_header (env.webhook_secret.getD "")) = true
    · simp [handlerInner, hjb, hsig, Except.mapError, bind, Except.bind, pure, Except.pure,
        traceOf] at hmem
    · by_cases htok : envTruthy env.github_token
      swap
      · simp [handlerInner, hjb, hsig, htok, Except.mapError, bind, Except.bind, pure,
          Except.pure, traceOf] at hmem
      · cases b with
        | null =>
          simp [handlerInner, hjb, hsig, htok, pyDictGet, Except.mapError, bind, Except.bind,
            traceOf] at hmem
        | bool x =>
          simp [handlerInner, hjb, hsig, htok, pyDictGet, Except.mapError, bind, Except.bind,
            traceOf] at hmem
        | num x =>
          simp [handlerInner, hjb, hsig, htok, pyDictGet, Except.mapError, bind, Except.bind,
            traceOf] at hmem
        | str x =>
          simp [handlerInner, hjb, hsig, htok, pyDictGet, Except.mapError, bind, Except.bind,
            traceOf] at hmem
        | arr x =>
          simp [handlerInner, hjb, hsig, htok, pyDictGet, Except.mapError, bind, Except.bind,
            traceOf] at hmem
        | obj bf =>
          by_cases hfil : (req.event_header.getD "" != "deployment_protection_rule" ||
              !(pyEqStr ((bf.lookup "action").getD .null) "requested")) = true
          · simp [handlerInner, hjb, hsig, htok, hfil, pyDictGet, Json.lookup, Except.mapError,
              bind, Except.bind, pure, Except.pure, traceOf] at hmem
          · have hfil2 : (req.event_header.getD "" != "deployment_protection_rule" ||
                !(pyEqStr ((bf.lookup "action").getD .null) "requested")) = false := by
              simpa using hfil
            rcases Bool.or_eq_false_iff.mp hfil2 with ⟨h1, h2⟩
            refine ⟨bf, rfl, ?_, ?_⟩
            · have hev : req.event_header.getD "" = "deployment_protection_rule" := by
                simpa using h1
              cases hoe : req.event_header with
              | none => rw [hoe] at hev; simp at hev
              | some s => rw [hoe] at hev; simp only [Option.getD_some] at hev; rw [hev]
            · simpa using h2

/-- C1 counterexample: a filter-passing request whose payload has no
`deployment_callback_url` still leads to a `rejectDeployment` invocation —
with `None` as the callback URL — against the claim's "no approve/reject
call is ever made when deployment_callback_url is absent". -/
theorem reject_called_without_callback_url :
    ([("action", Json.str "requested"),
      ("sender", Json.obj [("login", Json.str "carol")])].lookup "deployment_callback_url"
        = none)
    ∧ approval_webhook ⟨none, some "tok", some "bob"⟩
        ⟨.exn "n", .ok 200 "" .null, .ok 200 "" .null, .exn "n"⟩
        ⟨some "deployment_protection_rule", none, [],
         .ok (.obj [("action", Json.str "requested"),
                    ("sender", Json.obj [("login", Json.str "carol")])])⟩ =
      (⟨200, .obj [("status", .str "rejected"),
                   ("reason", .str "El usuario utilizado para el despliegue no se encuentra autorizado para desplegar en None"),
                   ("initiated_by", .str "carol"),
                   ("authorized_user", .str "bob"),
                   ("rejection_result", .obj [("status", .str "rejected")])]⟩,
       [.rejectCall .null "El usuario utilizado para el despliegue no se encuentra autorizado para desplegar en None"]) :=
  ⟨rfl, rfl⟩

/-- Concrete instantiation of `callback_requires_filter` at the same
request: the recorded reject call implies the filter was passed. -/
theorem callback_requires_filter_witness :
    ∃ bf, (Request.mk (some "deployment_protection_rule") none []
          (.ok (.obj [("action", Json.str "requested"),
                      ("sender", Json.obj [("login", Json.str "carol")])]))).json_body
          = .ok (.obj bf)
      ∧ (Request.mk (some "deployment_protection_rule") none []
          (.ok (.obj [("action", Json.str "requested"),
                      ("sender", Json.obj [("login", Json.str "carol")])]))).event_header
          = some "deployment_protection_rule"
      ∧ pyEqStr ((bf.lookup "action").getD .null) "requested" = true :=
  callback_requires_filter ⟨none, some "tok", some "bob"⟩
    ⟨.exn "n", .ok 200 "" .null, .ok 200 "" .null, .exn "n"⟩
    ⟨some "deployment_protection_rule", none, [],
     .ok (.obj [("action", Json.str "requested"),
                ("sender", Json.obj [("login", Json.str "carol")])])⟩
    ⟨200, .obj [("status", .str "rejected"),
                ("reason", .str "El usuario utilizado para el despliegue no se encuentra autorizado para desplegar en None"),
                ("initiated_by", .str "carol"),
                ("authorized_user", .str "bob"),
                ("rejection_result", .obj [("status", .str "rejected")])]⟩
    [.rejectCall .null "El usuario utilizado para el despliegue no se encuentra autorizado para desplegar en None"]
    .null "El usuario utilizado para el despliegue no se encuentra autorizado para desplegar en None"
    rfl (Or.inr (List.Mem.head _))


theorem jGet_obj (l : List (String × Json)) (k : String) :
    jGet (.obj l) k = (l.lookup k).getD .null := rfl

theorem getD_lookup_eq (o : Option Json) (k : String) :
    Json.lookup (o.getD (Json.obj [])) k = Json.lookup (o.getD Json.null) k := by
  cases o with
  | none => simp [Json.lookup]
  | some v => rfl

theorem jGet_null_eq_of_obj (o : Option Json) (m : List (String × Json)) (k2 : String)
    (h : o.getD (.obj []) = .obj m) :
    jGet (o.getD .null) k2 = (m.lookup k2).getD .null := by
  cases o with
  | none =>
    simp only [Option.getD_none] at h ⊢
    cases h
    simp [jGet, Json.lookup]
  | some v =>
    simp only [Option.getD_some] at h ⊢
    subst h
    simp [jGet, Json.lookup]

theorem keyObjOrAbsent_elim (b : Json) (k : String) (h : keyObjOrAbsent b k = true) :
    ∃ m, (b.lookup k).getD (.obj []) = .obj m := by
  unfold keyObjOrAbsent at h
  cases hl : b.lookup k with
  | none => exact ⟨[], by simp [hl]⟩
  | some v =>
    rw [hl] at h
    cases v with
    | obj m => exact ⟨m, by simp [hl]⟩
    | null => simp at h
    | bool x => simp at h
    | num x => simp at h
    | str x => simp at h
    | arr x => simp at h

/-- The handler once it has passed parsing, the signature check, the token
check, the event filter and the field extraction: it rejects or approves
according to `validate_deployment_user`, with the documented bodies and
Gateway calls.  The conclusion does not mention `sRes`, so the summary
call's success or failure cannot change the response. -/
theorem handler_branch_eq :
    ∀ env gw req bf sRes,
      req.json_body = .ok (.obj bf) →
      (envTruthy env.webhook_secret &&
        !verify_signature req.raw_body req.signature_header (env.webhook_secret.getD "")) = false →
      envTruthy env.github_token = true →
      req.event_header = some "deployment_protection_rule" →
      pyEqStr ((bf.lookup "action").getD .null) "requested" = true →
      handlerShapeOk (.obj bf) = true →
      add_workflow_summary_error gw.jobsResp = .ok sRes →
      approval_webhook env gw req =
        (let b := Json.obj bf
         let authorized_user := env.authorized_user.getD "APZW3PRD_BCP"
         let r := validate_deployment_user gw authorized_user b
         let env_name := jGet (jGet b "deployment") "environment"
         let rid := jGet (jGet b "workflow") "id"
         if r.is_valid = false then
           (⟨200, .obj [("status", .str "rejected"),
                        ("reason", .str (rejectionMessage env_name)),
                        ("initiated_by", r.initiated_by),
                        ("authorized_user", .str authorized_user),
                        ("rejection_result", reject_deployment gw.rejectResp)]⟩,
            if rid.truthy then
              [.rejectCall (jGet b "deployment_callback_url") (rejectionMessage env_name),
               .summaryCall (jGet (jGet (jGet b "repository") "owner") "login")
                 (jGet (jGet b "repository") "name") rid (rejectionMessage env_name)]
            else
              [.rejectCall (jGet b "deployment_callback_url") (rejectionMessage env_name)])
         else
           (⟨200, .obj [("status", .str "approved"),
                        ("message", .str (approvalMessage r.initiated_by env_name)),
                        ("initiated_by", r.initiated_by),
                        ("environment", env_name),
                        ("approval_result", approve_deployment gw.approveResp)]⟩,
            [.approveCall (jGet b "deployment_callback_url")
               (approvalMessage r.initiated_by env_name)])) := by
  intro env gw req bf sRes hjson hsig htok hev hact hshape hsum
  simp only [handlerShapeOk, Bool.and_eq_true] at hshape
  obtain ⟨⟨⟨hs1, hs2⟩, hs3⟩, hs4⟩ := hshape
  obtain ⟨df, hdf⟩ := keyObjOrAbsent_elim _ _ hs1
  obtain ⟨rf, hrf⟩ := keyObjOrAbsent_elim _ _ hs2
  obtain ⟨wfl, hwfl⟩ := keyObjOrAbsent_elim _ _ hs3
  obtain ⟨ofl, hofl⟩ := keyObjOrAbsent_elim _ _ hs4
  simp only [Json.lookup] at hdf hrf hwfl
  have hofl2 : ((rf.lookup "owner").getD (.obj [])) = .obj ofl := by
    have : Json.lookup (jGet (Json.obj bf) "repository") "owner" = rf.lookup "owner" := by
      rw [jGet_obj, ← getD_lookup_eq, hrf]
      rfl
    rw [this] at hofl
    exact hofl
  have hevv : req.event_header.getD "" = "deployment_protection_rule" := by rw [hev]; rfl
  simp only [approval_webhook, handlerInner, hjson, Except.mapError, bind, Except.bind,
    hsig, Bool.false_eq_true, if_false, htok, pyDictGet, Json.lookup, hevv, hact,
    bne_self_eq_false, Bool.not_true, Bool.or_self, pure, Except.pure, hdf, hrf, hwfl, hofl2,
    hsum]
  simp only [jGet_obj]
  rw [jGet_null_eq_of_obj _ _ "environment" hdf, jGet_null_eq_of_obj _ _ "id" hwfl,
    jGet_null_eq_of_obj _ _ "name" hrf, jGet_null_eq_of_obj _ _ "owner" hrf]
  rw [show jGet ((rf.lookup "owner").getD Json.null) "login" =
      (ofl.lookup "login").getD .null from jGet_null_eq_of_obj _ _ "login" hofl2]
  by_cases hval : (validate_deployment_user gw (env.authorized_user.getD "APZW3PRD_BCP")
      (Json.obj bf)).is_valid = false
  · by_cases hrid : (((wfl.lookup "id").getD Json.null).truthy) = true
    · simp [hval, hrid]
    · simp [hval, hrid]
  · simp [hval]

/-- C7: for a well-formed `deployment_protection_rule`/`requested` event
whose resolved initiator is not authorized, the handler makes exactly one
`rejectDeployment` call whose comment is the non-empty localized message
naming the environment, calls `addWorkflowSummaryError` exactly when a
run id is truthy, and returns a 200 whose body carries `status:
"rejected"`, the reason, `initiated_by`, `authorized_user` and the
rejection result. The summary outcome `sRes` does not occur in the
conclusion: its failure cannot change the HTTP outcome. -/
theorem rejection_flow_spec :
    ∀ env gw req bf sRes,
      req.json_body = .ok (.obj bf) →
      (envTruthy env.webhook_secret &&
        !verify_signature req.raw_body req.signature_header (env.webhook_secret.getD "")) = false →
      envTruthy env.github_token = true →
      req.event_header = some "deployment_protection_rule" →
      pyEqStr ((bf.lookup "action").getD .null) "requested" = true →
      handlerShapeOk (.obj bf) = true →
      add_workflow_summary_error gw.jobsResp = .ok sRes →
      (validate_deployment_user gw (env.authorized_user.getD "APZW3PRD_BCP") (.obj bf)).is_valid
        = false →
      rejectionMessage (jGet (jGet (.obj bf) "deployment") "environment") ≠ ""
      ∧ approval_webhook env gw req =
        (⟨200, .obj [("status", .str "rejected"),
                     ("reason", .str (rejectionMessage (jGet (jGet (.obj bf) "deployment") "environment"))),
                     ("initiated_by",
                      (validate_deployment_user gw (env.authorized_user.getD "APZW3PRD_BCP")
                        (.obj bf)).initiated_by),
                     ("authorized_user", .str (env.authorized_user.getD "APZW3PRD_BCP")),
                     ("rejection_result", reject_deployment gw.rejectResp)]⟩,
         if (jGet (jGet (.obj bf) "workflow") "id").truthy then
           [.rejectCall (jGet (.obj bf) "deployment_callback_url")
              (rejectionMessage (jGet (jGet (.obj bf) "deployment") "environment")),
            .summaryCall (jGet (jGet (jGet (.obj bf) "repository") "owner") "login")
              (jGet (jGet (.obj bf) "repository") "name")
              (jGet (jGet (.obj bf) "workflow") "id")
              (rejectionMessage (jGet (jGet (.obj bf) "deployment") "environment"))]
         else
           [.rejectCall (jGet (.obj bf) "deployment_callback_url")
              (rejectionMessage (jGet (jGet (.obj bf) "deployment") "environment"))]) := by
  intro env gw req bf sRes h1 h2 h3 h4 h5 h6 h7 hval
  constructor
  · intro heq
    have hlen := congrArg String.length heq
    simp [rejectionMessage, String.length_append] at hlen
    exact absurd hlen.1 (by decide)
  · rw [handler_branch_eq env gw req bf sRes h1 h2 h3 h4 h5 h6 h7]
    simp only [hval, if_true]

/-- Concrete instantiation of `rejection_flow_spec`: `sender.login =
"mallory"` against authorized `"carol"` — one reject call with the
localized comment naming environment `prod`, a summary call for run id 7,
and the 200 `rejected` body. -/
theorem rejection_flow_spec_witness :
    rejectionMessage (jGet (jGet (Json.obj
        [("action", Json.str "requested"),
         ("deployment_callback_url", Json.str "https://cb"),
         ("deployment", Json.obj [("environment", Json.str "prod")]),
         ("workflow", Json.obj [("id", Json.num 7)]),
         ("repository", Json.obj [("owner", Json.obj [("login", Json.str "o")]),
                                  ("name", Json.str "r"), ("full_name", Json.str "o/r")]),
         ("sender", Json.obj [("login", Json.str "mallory")])]) "deployment") "environment") ≠ ""
    ∧ approval_webhook ⟨none, some "tok", some "carol"⟩
        ⟨.exn "n", .exn "n", .ok 200 "" .null, .exn "n"⟩
        ⟨some "deployment_protection_rule", none, [],
         .ok (Json.obj
           [("action", Json.str "requested"),
            ("deployment_callback_url", Json.str "https://cb"),
            ("deployment", Json.obj [("environment", Json.str "prod")]),
            ("workflow", Json.obj [("id", Json.num 7)]),
            ("repository", Json.obj [("owner", Json.obj [("login", Json.str "o")]),
                                     ("name", Json.str "r"), ("full_name", Json.str "o/r")]),
            ("sender", Json.obj [("login", Json.str "mallory")])])⟩ =
      (⟨200, .obj [("status", .str "rejected"),
                   ("reason", .str "El usuario utilizado para el despliegue no se encuentra autorizado para desplegar en prod"),
                   ("initiated_by", .str "mallory"),
                   ("authorized_user", .str "carol"),
                   ("rejection_result", .obj [("status", .str "rejected")])]⟩,
       [.rejectCall (.str "https://cb")
          "El usuario utilizado para el despliegue no se encuentra autorizado para desplegar en prod",
        .summaryCall (.str "o") (.str "r") (.num 7)
          "El usuario utilizado para el despliegue no se encuentra autorizado para desplegar en prod"]) :=
  rejection_flow_spec ⟨none, some "tok", some "carol"⟩
    ⟨.exn "n", .exn "n", .ok 200 "" .null, .exn "n"⟩
    ⟨some "deployment_protection_rule", none, [],
     .ok (Json.obj
       [("action", Json.str "requested"),
        ("deployment_callback_url", Json.str "https://cb"),
        ("deployment", Json.obj [("environment", Json.str "prod")]),
        ("workflow", Json.obj [("id", Json.num 7)]),
        ("repository", Json.obj [("owner", Json.obj [("login", Json.str "o")]),
                                 ("name", Json.str "r"), ("full_name", Json.str "o/r")]),
        ("sender", Json.obj [("login", Json.str "mallory")])])⟩
    [("action", Json.str "requested"),
     ("deployment_callback_url", Json.str "https://cb"),
     ("deployment", Json.obj [("environment", Json.str "prod")]),
     ("workflow", Json.obj [("id", Json.num 7)]),
     ("repository", Json.obj [("owner", Json.obj [("login", Json.str "o")]),
                              ("name", Json.str "r"), ("full_name", Json.str "o/r")]),
     ("sender", Json.obj [("login", Json.str "mallory")])]
    false rfl rfl rfl rfl rfl rfl rfl rfl

/-- C10: when `AUTHORIZED_USER` is unset the handler behaves exactly as if
it were set to the literal placeholder `"APZW3PRD_BCP"`; against that
identity, a resolved initiator is valid iff it normalizes
case-insensitively to `"apzw3prd_bcp"`; and at the handler level a
well-formed event with a resolved initiator is answered `approved` when
the normalized initiator is `"apzw3prd_bcp"` and `rejected` otherwise. -/
theorem default_authorized_user_spec :
    (∀ env gw req, env.authorized_user = none →
        approval_webhook env gw req =
          approval_webhook ⟨env.webhook_secret, env.github_token, some "APZW3PRD_BCP"⟩ gw req)
    ∧ (∀ gw p rid s, resolveInitiator gw p = .ok (rid, .str s) → s ≠ "" →
        ((validate_deployment_user gw "APZW3PRD_BCP" p).is_valid = true ↔
          pyLower (extractUsernameStr s) = "apzw3prd_bcp"))
    ∧ (∀ env gw req bf sRes rid s,
        env.authorized_user = none →
        req.json_body = .ok (.obj bf) →
        (envTruthy env.webhook_secret &&
          !verify_signature req.raw_body req.signature_header (env.webhook_secret.getD "")) = false →
        envTruthy env.github_token = true →
        req.event_header = some "deployment_protection_rule" →
        pyEqStr ((bf.lookup "action").getD .null) "requested" = true →
        handlerShapeOk (.obj bf) = true →
        add_workflow_summary_error gw.jobsResp = .ok sRes →
        resolveInitiator gw (.obj bf) = .ok (rid, .str s) → s ≠ "" →
        jGet (approval_webhook env gw req).1.body "status" =
          (if pyLower (extractUsernameStr s) = "apzw3prd_bcp" then Json.str "approved"
           else Json.str "rejected")) := by
  refine ⟨?_, ?_, ?_⟩
  · intro env gw req h
    obtain ⟨ws, tok, au⟩ := env
    simp only at h
    subst h
    rfl
  · intro gw p rid s h hs
    rw [validate_fields_of_resolved gw "APZW3PRD_BCP" p rid s h hs]
    rw [show pyLower (extractUsernameStr "APZW3PRD_BCP") = "apzw3prd_bcp" from rfl]
    simp [beq_iff_eq]
  · intro env gw req bf sRes rid s henv hjson hsig htok hev hact hshape hsum hres hs
    have hgetd : env.authorized_user.getD "APZW3PRD_BCP" = "APZW3PRD_BCP" := by
      rw [henv]; rfl
    have hv := validate_fields_of_resolved gw "APZW3PRD_BCP" (.obj bf) rid s hres hs
    rw [handler_branch_eq env gw req bf sRes hjson hsig htok hev hact hshape hsum]
    by_cases hmatch : pyLower (extractUsernameStr s) = "apzw3prd_bcp"
    · have hvalid : (validate_deployment_user gw "APZW3PRD_BCP" (.obj bf)).is_valid = true := by
        rw [hv]
        simp only []
        rw [show pyLower (extractUsernameStr "APZW3PRD_BCP") = "apzw3prd_bcp" from rfl, hmatch]
        simp
      simp [hgetd, hvalid, hmatch, jGet, Json.lookup]
    · have hvalid : (validate_deployment_user gw "APZW3PRD_BCP" (.obj bf)).is_valid = false := by
        rw [hv]
        simp only []
        rw [show pyLower (extractUsernameStr "APZW3PRD_BCP") = "apzw3prd_bcp" from rfl]
        exact beq_eq_false_iff_ne.mpr hmatch
      simp [hgetd, hvalid, hmatch, jGet, Json.lookup]

/-- Concrete instantiations of `default_authorized_user_spec`: an unset
`AUTHORIZED_USER` behaves as the placeholder; `"Apzw3prd_BCP"` (different
case) validates against it; and a well-formed event initiated by
`"APZW3PRD_bcp"` is answered `approved`. -/
theorem default_authorized_user_spec_witness :
    (approval_webhook ⟨none, some "tok", none⟩ ⟨.exn "n", .exn "n", .exn "n", .exn "n"⟩
        ⟨some "push", none, [], .ok (.obj [])⟩ =
      approval_webhook ⟨none, some "tok", some "APZW3PRD_BCP"⟩
        ⟨.exn "n", .exn "n", .exn "n", .exn "n"⟩ ⟨some "push", none, [], .ok (.obj [])⟩)
    ∧ ((validate_deployment_user ⟨.exn "n", .exn "n", .exn "n", .exn "n"⟩ "APZW3PRD_BCP"
          (.obj [("sender", .obj [("login", .str "Apzw3prd_BCP")])])).is_valid = true ↔
        pyLower (extractUsernameStr "Apzw3prd_BCP") = "apzw3prd_bcp")
    ∧ jGet (approval_webhook ⟨none, some "tok", none⟩
          ⟨.exn "n", .ok 200 "" .null, .ok 200 "" .null, .exn "n"⟩
          ⟨some "deployment_protection_rule", none, [],
           .ok (.obj [("action", .str "requested"),
                      ("sender", .obj [("login", .str "APZW3PRD_bcp")])])⟩).1.body "status" =
        (if pyLower (extractUsernameStr "APZW3PRD_bcp") = "apzw3prd_bcp" then Json.str "approved"
         else Json.str "rejected") :=
  ⟨default_authorized_user_spec.1 ⟨none, some "tok", none⟩
      ⟨.exn "n", .exn "n", .exn "n", .exn "n"⟩ ⟨some "push", none, [], .ok (.obj [])⟩ rfl,
   default_authorized_user_spec.2.1 ⟨.exn "n", .exn "n", .exn "n", .exn "n"⟩
      (.obj [("sender", .obj [("login", .str "Apzw3prd_BCP")])]) .null "Apzw3prd_BCP" rfl
      (by decide),
   default_authorized_user_spec.2.2 ⟨none, some "tok", none⟩
      ⟨.exn "n", .ok 200 "" .null, .ok 200 "" .null, .exn "n"⟩
      ⟨some "deployment_protection_rule", none, [],
       .ok (.obj [("action", .str "requested"),
                  ("sender", .obj [("login", .str "APZW3PRD_bcp")])])⟩
      [("action", .str "requested"), ("sender", .obj [("login", .str "APZW3PRD_bcp")])]
      false .null "APZW3PRD_bcp" rfl rfl rfl rfl rfl rfl rfl rfl rfl (by decide)⟩

end DeployApproval

